import Mathlib

/-!
# Aptomi: policy view, component delete action, policy API handlers, policy namespace

A shallow embedding of

* `pkg/lang/policy_view.go` (namespace `Aptomi.lang`),
* `pkg/engine/apply/action/component/delete.go` (namespace `Aptomi.component`),
* `pkg/api/policy.go` (namespace `Aptomi.api`),
* `pkg/slinga/lang/policy_namespace.go` (namespace `Aptomi.slinga`).

Conventions of the embedding.

* A Go `error` is `GoError := Option String`: `none` is `nil`, `some msg` is an
  error with message `msg`.
* A Go call that may panic returns an `Outcome`: `ret v` for a normal return,
  `panic msg` for a panic.  Code that mutates state and may panic returns the
  state reached together with the outcome.
* A Go `map[string]T` is an association list `GoMap T` with at most one entry
  per key; a lookup of an absent key gives `none` (the zero value `nil` of a
  pointer type).
* An interface value (`lang.Base`, `object.Base`) is a record carrying the
  dynamic Go type of the value, the three strings every object exposes
  (`GetKind`, `GetNamespace`, `GetName`) and the remaining fields as `Body`.
* Types, constants and functions which the sources use but do not declare are
  parameters, collected in one `Env` structure per package.
-/

namespace Aptomi

/-! ## Go prelude -/

/-- A Go `error` value: `none` is `nil`. -/
abbrev GoError := Option String

/-- Result of a Go call which either returns or panics. -/
inductive Outcome (α : Type) where
  | ret (a : α)
  | panic (msg : String)
  deriving DecidableEq, Repr

/-- The runtime error raised by dereferencing a nil pointer. -/
def nilDeref : String := "runtime error: invalid memory address or nil pointer dereference"

/-- The runtime error raised by a failed single-value type assertion. -/
def badAssert : String := "interface conversion: unexpected dynamic type"

/-- Go `len(s)` of a string: the number of bytes. -/
def len (s : String) : Nat := s.utf8ByteSize

/-- A Go `map[string]T`. -/
abbrev GoMap (α : Type) := List (String × α)

/-- Map lookup `m[k]`; `none` when the key is absent. -/
def GoMap.get {α : Type} (m : GoMap α) (k : String) : Option α :=
  match m with
  | [] => none
  | (k1, v) :: rest => if k1 = k then some v else GoMap.get rest k

/-- Map assignment `m[k] = v`. -/
def GoMap.set {α : Type} (m : GoMap α) (k : String) (v : α) : GoMap α :=
  match m with
  | [] => [(k, v)]
  | (k1, v1) :: rest => if k1 = k then (k, v) :: rest else (k1, v1) :: GoMap.set rest k v

/-- The keys of a map. -/
def GoMap.keys {α : Type} (m : GoMap α) : List String := m.map Prod.fst

/-- The string `sub` occurs inside `s`. -/
def Contains (s sub : String) : Prop := ∃ pre post : String, s = pre ++ sub ++ post

/-- The dynamic Go type of a value held in a `Base` interface. -/
inductive GoType where
  | Service | Contract | Cluster | Rule | Dependency | Claim | ACLRule | Other
  deriving DecidableEq, Repr

/-- A value of interface type `Base`: `Kind` is what `GetKind()` returns,
`Namespace` what `GetNamespace()` returns, `Name` what `GetName()` returns. -/
structure Base (β : Type) where
  Dyn : GoType
  Kind : String
  Namespace : String
  Name : String
  Body : β
  deriving DecidableEq, Repr

/-! ## pkg/lang/policy_view.go -/

namespace lang

/-- Result of the ACL resolver for a user and an object. -/
structure Privilege where
  View : Bool
  Manage : Bool
  deriving DecidableEq, Repr

/-- A user; `Rest` stands for the fields other than `Name`. -/
structure User (υ : Type) where
  Name : String
  Rest : υ
  deriving DecidableEq, Repr

/-- The ACL resolver, seen through its one method used here. -/
structure ACLResolver (β υ : Type) where
  GetUserPrivileges : User υ → Base β → Except String Privilege

/-- A service (`*Service`); only `GetNamespace` and `GetName` are used here. -/
structure Service (β : Type) where
  Kind : String
  Namespace : String
  Name : String
  Body : β
  deriving DecidableEq, Repr

/-- What the package uses without declaring it. -/
structure Env (π β : Type) where
  /-- `Policy.AddObject`: the policy after the call and the error returned -/
  PolicyAddObject : π → Base β → π × GoError
  /-- `TypeClaim.GetTypeKind()` -/
  ClaimKind : String
  /-- the zero value of the fields of `Claim` other than `TypeKind` and `Metadata` -/
  ZeroBody : β

/-- PolicyView allows to view/manage policy objects on behalf on a certain user. -/
structure PolicyView (π β υ : Type) where
  Policy : π
  User : User υ
  Resolver : ACLResolver β υ

/-- NewPolicyView creates a new PolicyView. -/
def NewPolicyView {π β υ : Type} (policy : π) (user : User υ) (resolver : ACLResolver β υ) :
    PolicyView π β υ :=
  { Policy := policy, User := user, Resolver := resolver }

/-- The ACL error message of `AddObject` and `ManageObject`. -/
def manageErr {β υ : Type} (user : User υ) (obj : Base β) : String :=
  "user '" ++ user.Name ++ "' doesn't have ACL permissions to manage object '" ++
    obj.Namespace ++ "/" ++ obj.Kind ++ "/" ++ obj.Name ++ "'"

/-- The ACL error message of `ViewObject`. -/
def viewErr {β υ : Type} (user : User υ) (obj : Base β) : String :=
  "user '" ++ user.Name ++ "' doesn't have ACL permissions to view object '" ++
    obj.Namespace ++ "/" ++ obj.Kind ++ "/" ++ obj.Name ++ "'"

/-- The ACL error message of `CanConsume`. -/
def consumeErr {β υ : Type} (user : User υ) (service : Service β) : String :=
  "user '" ++ user.Name ++ "' doesn't have ACL permissions to consume service '" ++
    service.Namespace ++ "/" ++ service.Name ++ "'"

/-- AddObject adds an object into the policy: the view after the call and the error. -/
def PolicyView.AddObject {π β υ : Type} (env : Env π β) (view : PolicyView π β υ)
    (obj : Base β) : PolicyView π β υ × GoError :=
  match view.Resolver.GetUserPrivileges view.User obj with
  | .error err => (view, some err)
  | .ok privilege =>
    if !privilege.Manage then
      (view, some (manageErr view.User obj))
    else
      let r := env.PolicyAddObject view.Policy obj
      ({ view with Policy := r.1 }, r.2)

/-- ViewObject checks if user has permissions to view a given object. -/
def PolicyView.ViewObject {π β υ : Type} (view : PolicyView π β υ) (obj : Base β) : GoError :=
  match view.Resolver.GetUserPrivileges view.User obj with
  | .error err => some err
  | .ok privilege =>
    if !privilege.View then some (viewErr view.User obj) else none

/-- ManageObject checks if user has permissions to manage a given object. -/
def PolicyView.ManageObject {π β υ : Type} (view : PolicyView π β υ) (obj : Base β) : GoError :=
  match view.Resolver.GetUserPrivileges view.User obj with
  | .error err => some err
  | .ok privilege =>
    if !privilege.Manage then some (manageErr view.User obj) else none

/-- The claim object which `CanConsume` builds: only `TypeKind` and, in
`Metadata`, the namespace are set. -/
def syntheticClaim {π β : Type} (env : Env π β) (service : Service β) : Base β :=
  { Dyn := GoType.Claim, Kind := env.ClaimKind, Namespace := service.Namespace, Name := "",
    Body := env.ZeroBody }

/-- CanConsume returns if user has permissions to consume a given service. -/
def PolicyView.CanConsume {π β υ : Type} (env : Env π β) (view : PolicyView π β υ)
    (service : Service β) : Bool × GoError :=
  let obj := syntheticClaim env service
  match view.Resolver.GetUserPrivileges view.User obj with
  | .error err => (false, some err)
  | .ok privilege =>
    if !privilege.Manage then (false, some (consumeErr view.User service)) else (true, none)

end lang

/-! ## pkg/engine/apply/action/component/delete.go -/

namespace component

/-- The key of a component instance (`instance.Metadata.Key`). -/
structure ComponentInstanceKey where
  Namespace : String
  ServiceName : String
  ComponentName : String
  deriving DecidableEq, Repr

/-- A component instance of the actual state (a non-nil `*ComponentInstance`).
`Cluster`, `DeployName` and `KeyString` are what `GetCluster()`,
`GetDeployName()` and `GetKey()` return for it. -/
structure ComponentInstance (γ : Type) where
  Key : ComponentInstanceKey
  CalculatedCodeParams : γ
  Cluster : String
  DeployName : String
  KeyString : String
  deriving DecidableEq, Repr

/-- The code of a service component; `CodeType` is the field `Type`. -/
structure Code where
  CodeType : String
  deriving DecidableEq, Repr

/-- A component of a service; `Code` is a pointer and may be nil. -/
structure ServiceComponent where
  Name : String
  Code : Option Code
  deriving DecidableEq, Repr

/-- The actual state: which component instances are deployed. The map holds
pointers (`map[string]*ComponentInstance`), so the lookup of an absent key
gives nil. -/
structure ActualState (γ : Type) where
  ComponentInstanceMap : GoMap (ComponentInstance γ)
  deriving DecidableEq, Repr

/-- A code plugin; `Destroy name params eventLog` acts on the world outside
the engine (event log, cloud) and returns an error or nil. -/
structure CodePlugin (γ ω : Type) where
  Destroy : String → γ → ω → ω × GoError

/-- The plugin registry of the context. -/
structure PluginRegistry (β γ ω : Type) where
  ForCodeType : Base β → String → Except String (CodePlugin γ ω)

/-- The context an action is applied in. `World` holds the event log and
everything plugins act on. -/
structure Context (π β γ ω : Type) where
  DesiredPolicy : π
  ActualState : ActualState γ
  Plugins : PluginRegistry β γ ω
  World : ω

/-- What the package uses without declaring it. -/
structure Env (π β γ ω : Type) where
  /-- `lang.ServiceObject.Kind` -/
  ServiceKind : String
  /-- `lang.ClusterObject.Kind` -/
  ClusterKind : String
  /-- `runtime.SystemNS` -/
  SystemNS : String
  /-- `Policy.GetObject(kind, name, namespace)`; `ok none` is a nil object without error -/
  GetObject : π → String → String → String → Except String (Option (Base β))
  /-- `Service.GetComponentsMap()` -/
  GetComponentsMap : Base β → GoMap ServiceComponent
  /-- `EventLog.WithFields(componentKey, component, code).Info(msg)` -/
  LogInfo : ω → ComponentInstanceKey → String → γ → String → ω
  /-- `deleteComponentFromActualState(componentKey, context)` -/
  deleteComponentFromActualState :
    String → Context π β γ ω → Context π β γ ω × Outcome GoError

/-- DeleteAction is a action which gets called when an existing component needs to be destroyed. -/
structure DeleteAction where
  Kind : String
  ComponentKey : String
  deriving DecidableEq, Repr

/-- NewDeleteAction creates new DeleteAction. -/
def NewDeleteAction (componentKey : String) : DeleteAction :=
  { Kind := "action-component-delete", ComponentKey := componentKey }

/-- The deployment step of `Apply`: delete from cloud. -/
def DeleteAction.processDeployment {π β γ ω : Type} (env : Env π β γ ω) (a : DeleteAction)
    (context : Context π β γ ω) : Context π β γ ω × Outcome GoError :=
  match context.ActualState.ComponentInstanceMap.get a.ComponentKey with
  | none =>
    -- the instance is nil and reading its Metadata dereferences it
    (context, Outcome.panic nilDeref)
  | some inst =>
    match env.GetObject context.DesiredPolicy env.ServiceKind inst.Key.ServiceName
        inst.Key.Namespace with
    | .error err => (context, Outcome.ret (some err))
    | .ok none => (context, Outcome.panic badAssert)
    | .ok (some serviceObj) =>
      if serviceObj.Dyn ≠ GoType.Service then (context, Outcome.panic badAssert)
      else
        match (env.GetComponentsMap serviceObj).get inst.Key.ComponentName with
        | none => (context, Outcome.ret none)
        | some component =>
          match component.Code with
          | none => (context, Outcome.ret none)
          | some code =>
            let world1 := env.LogInfo context.World inst.Key component.Name
              inst.CalculatedCodeParams
              ("Destructing a running component instance: " ++ inst.KeyString)
            let context1 := { context with World := world1 }
            let clusterName := inst.Cluster
            if len clusterName ≤ 0 then
              (context1, Outcome.ret
                (some "policy doesn't specify deployment target for component instance"))
            else
              match env.GetObject context.DesiredPolicy env.ClusterKind clusterName
                  env.SystemNS with
              | .error err => (context1, Outcome.ret (some err))
              | .ok none =>
                (context1, Outcome.ret
                  (some ("cluster '" ++ clusterName ++ "' in not present in policy")))
              | .ok (some clusterObj) =>
                if clusterObj.Dyn ≠ GoType.Cluster then (context1, Outcome.panic badAssert)
                else
                  match context.Plugins.ForCodeType clusterObj code.CodeType with
                  | .error err => (context1, Outcome.ret (some err))
                  | .ok plugin =>
                    let r := plugin.Destroy inst.DeployName inst.CalculatedCodeParams
                      world1
                    ({ context with World := r.1 }, Outcome.ret r.2)

/-- The message of the error `Apply` returns when the deployment step fails. -/
def deleteErr (componentKey err : String) : String :=
  "unable to delete component instance '" ++ componentKey ++ "': " ++ err

/-- Apply applies the action. -/
def DeleteAction.Apply {π β γ ω : Type} (env : Env π β γ ω) (a : DeleteAction)
    (context : Context π β γ ω) : Context π β γ ω × Outcome GoError :=
  -- delete from cloud
  match a.processDeployment env context with
  | (context1, Outcome.panic msg) => (context1, Outcome.panic msg)
  | (context1, Outcome.ret (some err)) =>
    (context1, Outcome.ret (some (deleteErr a.ComponentKey err)))
  | (context1, Outcome.ret none) =>
    -- update actual state
    env.deleteComponentFromActualState a.ComponentKey context1

/-- The ways the deployment step fails with the error `err`: the service
lookup fails, the instance names no cluster, the cluster lookup fails, the
cluster is not in the policy, there is no code plugin for the cluster and the
code type, or `Destroy` returns an error. -/
inductive DeploymentFailure {π β γ ω : Type} (env : Env π β γ ω) (a : DeleteAction)
    (context : Context π β γ ω) : String → Prop where
  | serviceLookup (inst : ComponentInstance γ) (err : String)
      (hinst : context.ActualState.ComponentInstanceMap.get a.ComponentKey = some inst)
      (hsvc : env.GetObject context.DesiredPolicy env.ServiceKind inst.Key.ServiceName
        inst.Key.Namespace = Except.error err) :
      DeploymentFailure env a context err
  | noClusterName (inst : ComponentInstance γ) (serviceObj : Base β)
      (component : ServiceComponent) (code : Code)
      (hinst : context.ActualState.ComponentInstanceMap.get a.ComponentKey = some inst)
      (hsvc : env.GetObject context.DesiredPolicy env.ServiceKind inst.Key.ServiceName
        inst.Key.Namespace = Except.ok (some serviceObj))
      (hdyn : serviceObj.Dyn = GoType.Service)
      (hcomp : (env.GetComponentsMap serviceObj).get inst.Key.ComponentName = some component)
      (hcode : component.Code = some code)
      (hname : len inst.Cluster ≤ 0) :
      DeploymentFailure env a context
        "policy doesn't specify deployment target for component instance"
  | clusterLookup (inst : ComponentInstance γ) (serviceObj : Base β)
      (component : ServiceComponent) (code : Code) (err : String)
      (hinst : context.ActualState.ComponentInstanceMap.get a.ComponentKey = some inst)
      (hsvc : env.GetObject context.DesiredPolicy env.ServiceKind inst.Key.ServiceName
        inst.Key.Namespace = Except.ok (some serviceObj))
      (hdyn : serviceObj.Dyn = GoType.Service)
      (hcomp : (env.GetComponentsMap serviceObj).get inst.Key.ComponentName = some component)
      (hcode : component.Code = some code)
      (hname : ¬ len inst.Cluster ≤ 0)
      (hcl : env.GetObject context.DesiredPolicy env.ClusterKind inst.Cluster env.SystemNS =
        Except.error err) :
      DeploymentFailure env a context err
  | clusterAbsent (inst : ComponentInstance γ) (serviceObj : Base β)
      (component : ServiceComponent) (code : Code)
      (hinst : context.ActualState.ComponentInstanceMap.get a.ComponentKey = some inst)
      (hsvc : env.GetObject context.DesiredPolicy env.ServiceKind inst.Key.ServiceName
        inst.Key.Namespace = Except.ok (some serviceObj))
      (hdyn : serviceObj.Dyn = GoType.Service)
      (hcomp : (env.GetComponentsMap serviceObj).get inst.Key.ComponentName = some component)
      (hcode : component.Code = some code)
      (hname : ¬ len inst.Cluster ≤ 0)
      (hcl : env.GetObject context.DesiredPolicy env.ClusterKind inst.Cluster env.SystemNS =
        Except.ok none) :
      DeploymentFailure env a context
        ("cluster '" ++ inst.Cluster ++ "' in not present in policy")
  | noCodePlugin (inst : ComponentInstance γ) (serviceObj : Base β)
      (component : ServiceComponent) (code : Code) (clusterObj : Base β) (err : String)
      (hinst : context.ActualState.ComponentInstanceMap.get a.ComponentKey = some inst)
      (hsvc : env.GetObject context.DesiredPolicy env.ServiceKind inst.Key.ServiceName
        inst.Key.Namespace = Except.ok (some serviceObj))
      (hdyn : serviceObj.Dyn = GoType.Service)
      (hcomp : (env.GetComponentsMap serviceObj).get inst.Key.ComponentName = some component)
      (hcode : component.Code = some code)
      (hname : ¬ len inst.Cluster ≤ 0)
      (hcl : env.GetObject context.DesiredPolicy env.ClusterKind inst.Cluster env.SystemNS =
        Except.ok (some clusterObj))
      (hcdyn : clusterObj.Dyn = GoType.Cluster)
      (hplugin : context.Plugins.ForCodeType clusterObj code.CodeType = Except.error err) :
      DeploymentFailure env a context err
  | destroy (inst : ComponentInstance γ) (serviceObj : Base β)
      (component : ServiceComponent) (code : Code) (clusterObj : Base β)
      (plugin : CodePlugin γ ω) (err : String)
      (hinst : context.ActualState.ComponentInstanceMap.get a.ComponentKey = some inst)
      (hsvc : env.GetObject context.DesiredPolicy env.ServiceKind inst.Key.ServiceName
        inst.Key.Namespace = Except.ok (some serviceObj))
      (hdyn : serviceObj.Dyn = GoType.Service)
      (hcomp : (env.GetComponentsMap serviceObj).get inst.Key.ComponentName = some component)
      (hcode : component.Code = some code)
      (hname : ¬ len inst.Cluster ≤ 0)
      (hcl : env.GetObject context.DesiredPolicy env.ClusterKind inst.Cluster env.SystemNS =
        Except.ok (some clusterObj))
      (hcdyn : clusterObj.Dyn = GoType.Cluster)
      (hplugin : context.Plugins.ForCodeType clusterObj code.CodeType = Except.ok plugin)
      (hdestroy : (plugin.Destroy inst.DeployName inst.CalculatedCodeParams
        (env.LogInfo context.World inst.Key component.Name inst.CalculatedCodeParams
          ("Destructing a running component instance: " ++ inst.KeyString))).2 = some err) :
      DeploymentFailure env a context err

end component

/-! ## pkg/api/policy.go -/

namespace api

/-- The type `runtime.Generation`, which is declared in `pkg/runtime`: an
unsigned 64-bit integer, so values are below `2 ^ 64` and arithmetic wraps
around. -/
abbrev Generation := Nat

/-- The expression `g - 1` on a `Generation`. -/
def Generation.subOne (g : Generation) : Generation := (g + 2 ^ 64 - 1) % 2 ^ 64

/-- The conversion `int(g)` of a `Generation` to a signed 64-bit integer. -/
def Generation.toInt (g : Generation) : Int :=
  if g % 2 ^ 64 < 2 ^ 63 then ((g % 2 ^ 64 : Nat) : Int) else ((g % 2 ^ 64 : Nat) : Int) - 2 ^ 64

/-- The function `strconv.Itoa`. -/
def Itoa (i : Int) : String := toString i

/-- The verb `%d` of `fmt` applied to a `Generation`. -/
def fmtD (g : Generation) : String := toString g

/-- The constant `http.StatusNotFound`. -/
def StatusNotFound : Nat := 404

/-- The parameters of a request (`httprouter.Params`). -/
abbrev Params := List (String × String)

/-- The value of the first parameter named `name`, or the empty string. -/
def Params.ByName (params : Params) (name : String) : String :=
  match params with
  | [] => ""
  | (k, v) :: rest => if k = name then v else Params.ByName rest name

/-- PolicyUpdateResult represents results for the policy update request. -/
structure PolicyUpdateResult (ρ : Type) where
  Kind : String
  PolicyGeneration : Generation
  PolicyChanged : Bool
  PlanAsText : ρ
  deriving DecidableEq, Repr

/-- The kind of `PolicyUpdateResultObject`. -/
def PolicyUpdateResultKind : String := "policy-update-result"

/-- GetDefaultColumns returns default set of columns to be displayed. -/
def PolicyUpdateResult.GetDefaultColumns {ρ : Type} (_result : PolicyUpdateResult ρ) :
    List String :=
  ["Policy Changes", "Action Plan"]

/-- AsColumns returns PolicyUpdateResult representation as columns;
`ToString` is `PlanAsText.ToString`. -/
def PolicyUpdateResult.AsColumns {ρ : Type} (ToString : ρ → String)
    (result : PolicyUpdateResult ρ) : GoMap String :=
  let policyChangesStr :=
    if result.PolicyChanged then
      "Gen " ++ fmtD (Generation.subOne result.PolicyGeneration) ++ " -> " ++
        fmtD result.PolicyGeneration
    else
      "Gen " ++ fmtD result.PolicyGeneration ++ " (none)"
  let actionPlanStr := ToString result.PlanAsText
  let actionPlanStr := if len actionPlanStr ≤ 0 then "(none)" else actionPlanStr
  GoMap.set (GoMap.set [] "Policy Changes" policyChangesStr) "Action Plan" actionPlanStr

/-- What a handler passes to the content type writer. -/
inductive Payload (β δ ρ : Type) where
  | null
  | policyData (d : δ)
  | object (o : Base β)
  | updateResult (r : PolicyUpdateResult ρ)
  deriving DecidableEq, Repr

/-- The calls a handler makes on its collaborators, in the order made. Checks
carry the error they returned. -/
inductive Event (β δ ρ : Type) where
  /-- `policy.AddObject(obj)` -/
  | AddObject (obj : Base β) (err : GoError)
  /-- `policy.View(user).ManageObject(obj)` -/
  | ManageObject (obj : Base β) (err : GoError)
  /-- `policy.RemoveObject(obj)` -/
  | RemoveObject (obj : Base β)
  /-- `policy.Validate()` -/
  | Validate (err : GoError)
  /-- `plugins.ForCluster(cluster)` -/
  | ForCluster (cluster : Base β) (err : GoError)
  /-- `plugin.Validate()` -/
  | PluginValidate (cluster : Base β) (err : GoError)
  /-- `actualState.Validate(policy)` -/
  | ActualStateValidate (err : GoError)
  /-- `api.store.UpdatePolicy(objects, user.Name)` -/
  | UpdatePolicy (objects : List (Base β)) (userName : String)
  /-- `api.store.DeleteFromPolicy(objects, user.Name)` -/
  | DeleteFromPolicy (objects : List (Base β)) (userName : String)
  /-- `api.contentType.WriteOne(writer, request, body)` -/
  | WriteOne (body : Payload β δ ρ)
  /-- `api.contentType.WriteOneWithStatus(writer, request, body, status)` -/
  | WriteOneWithStatus (body : Payload β δ ρ) (status : Nat)
  /-- `api.policyChanged <- v` -/
  | PolicyChanged (v : Bool)
  deriving DecidableEq, Repr

/-- The event is a check which returned an error. -/
def Event.isFailedCheck {β δ ρ : Type} : Event β δ ρ → Bool
  | .AddObject _ (some _) => true
  | .ManageObject _ (some _) => true
  | .Validate (some _) => true
  | .ForCluster _ (some _) => true
  | .PluginValidate _ (some _) => true
  | .ActualStateValidate (some _) => true
  | _ => false

/-- The event commits to the store. -/
def Event.isCommit {β δ ρ : Type} : Event β δ ρ → Bool
  | .UpdatePolicy _ _ => true
  | .DeleteFromPolicy _ _ => true
  | _ => false

/-- The event is a policy-changed signal. -/
def Event.isSignal {β δ ρ : Type} : Event β δ ρ → Bool
  | .PolicyChanged _ => true
  | _ => false

/-- What a handler acts on: the store and the calls made so far. -/
structure State (σ β δ ρ : Type) where
  store : σ
  log : List (Event β δ ρ)

/-- A cluster plugin; `Validate` is the result of its `Validate()`. -/
structure ClusterPlugin where
  Validate : GoError
  deriving DecidableEq, Repr

/-- What `api.readLang` and `api.getUserRequired` make of a request. -/
structure Request (β υ : Type) where
  Lang : Outcome (List (Base β))
  User : Outcome (lang.User υ)

/-- What the package uses without declaring it. -/
structure Env (σ π β υ α δ ρ : Type) where
  /-- `runtime.LastGen` -/
  LastGen : Generation
  /-- `runtime.ParseGeneration` -/
  ParseGeneration : String → Outcome Generation
  /-- `api.store.GetPolicyData(gen)` -/
  GetPolicyData : σ → Generation → Except String (Option δ)
  /-- `api.store.GetPolicy(gen)` -/
  GetPolicy : σ → Generation → Except String (Option π)
  /-- `api.store.GetActualState()` -/
  GetActualState : σ → Except String α
  /-- `api.store.UpdatePolicy(objects, userName)` -/
  UpdatePolicy : σ → List (Base β) → String → σ × Except String (Bool × δ)
  /-- `api.store.DeleteFromPolicy(objects, userName)` -/
  DeleteFromPolicy : σ → List (Base β) → String → σ × Except String (Bool × δ)
  /-- `Policy.AddObject(obj)` -/
  PolicyAddObject : π → Base β → π × GoError
  /-- `Policy.RemoveObject(obj)` -/
  PolicyRemoveObject : π → Base β → π
  /-- `Policy.Validate()` -/
  PolicyValidate : π → GoError
  /-- `Policy.GetObject(kind, name, namespace)` -/
  PolicyGetObject : π → String → String → String → Except String (Option (Base β))
  /-- `Policy.View(user)` -/
  View : π → lang.User υ → lang.PolicyView π β υ
  /-- `api.pluginRegistryFactory().ForCluster(cluster)` -/
  ForCluster : Base β → Except String ClusterPlugin
  /-- the field `Type` of a cluster -/
  ClusterType : Base β → String
  /-- `actualState.Validate(policy)` -/
  ActualStateValidate : α → π → GoError
  /-- `PolicyData.GetGeneration()` -/
  GetGeneration : δ → Generation
  /-- the text of the action plan of the diff between the resolution of a policy and an actual state -/
  PlanAsText : π → α → ρ

/-- A handler step: from a state to the state reached and a result or a panic. -/
def M (S α : Type) : Type := S → S × Outcome α

/-- Sequencing of handler steps: a panic ends the handler. -/
def M.bind {S α γ : Type} (m : M S α) (f : α → M S γ) : M S γ := fun s =>
  match m s with
  | (s1, Outcome.ret a) => f a s1
  | (s1, Outcome.panic msg) => (s1, Outcome.panic msg)

/-- A step that returns without acting. -/
def M.pure {S α : Type} (a : α) : M S α := fun s => (s, Outcome.ret a)

instance instMonadM {S : Type} : Monad (M S) where
  pure := M.pure
  bind := M.bind

/-- The statement `panic(msg)`. -/
def raise {S α : Type} (msg : String) : M S α := fun s => (s, Outcome.panic msg)

/-- A call that may panic and does not act on the state. -/
def ofOutcome {S α : Type} (o : Outcome α) : M S α := fun s => (s, o)

/-- Record a call. -/
def emit {σ β δ ρ : Type} (e : Event β δ ρ) : M (State σ β δ ρ) Unit := fun s =>
  ({ s with log := s.log ++ [e] }, Outcome.ret ())

/-- Read from the store. -/
def readStore {σ β δ ρ α : Type} (f : σ → α) : M (State σ β δ ρ) α := fun s =>
  (s, Outcome.ret (f s.store))

/-- Write to the store. -/
def writeStore {σ β δ ρ α : Type} (f : σ → σ × α) : M (State σ β δ ρ) α := fun s =>
  ({ s with store := (f s.store).1 }, Outcome.ret (f s.store).2)

section handlers

variable {σ π β υ α δ ρ : Type}

/-- The handler of `GET policy`: `params` are the parameters of the request. -/
def handlePolicyGet (env : Env σ π β υ α δ ρ) (params : Params) : M (State σ β δ ρ) Unit := do
  let gen := params.ByName "gen"
  let gen := if len gen = 0 then Itoa (Generation.toInt env.LastGen) else gen
  let g ← ofOutcome (env.ParseGeneration gen)
  let r ← readStore (fun st => env.GetPolicyData st g)
  match r with
  | .error err => raise ("error while getting requested policy: " ++ err)
  | .ok none =>
    -- policy with the given generation not found
    emit (Event.WriteOneWithStatus Payload.null StatusNotFound)
  | .ok (some policyData) => emit (Event.WriteOne (Payload.policyData policyData))

/-- The payload for an object which may be nil. -/
def Payload.ofObject (obj : Option (Base β)) : Payload β δ ρ :=
  match obj with
  | none => Payload.null
  | some o => Payload.object o

/-- The handler of `GET policy object`. -/
def handlePolicyObjectGet (env : Env σ π β υ α δ ρ) (params : Params) :
    M (State σ β δ ρ) Unit := do
  let gen := params.ByName "gen"
  let gen := if len gen = 0 then Itoa (Generation.toInt env.LastGen) else gen
  let g ← ofOutcome (env.ParseGeneration gen)
  let r ← readStore (fun st => env.GetPolicy st g)
  match r with
  | .error err => raise ("error while getting requested policy: " ++ err)
  | .ok none => raise nilDeref
  | .ok (some policy) =>
    let ns := params.ByName "ns"
    let kind := params.ByName "kind"
    let name := params.ByName "name"
    match env.PolicyGetObject policy kind name ns with
    | .error _ =>
      raise ("error while getting object " ++ ns ++ "/" ++ kind ++ "/" ++ name ++
        " in policy #" ++ gen)
    | .ok obj =>
      if obj.isNone then
        emit (Event.WriteOneWithStatus Payload.null StatusNotFound)
      emit (Event.WriteOne (Payload.ofObject obj))

/-- The body of `getPolicyUpdateResult`. -/
def getPolicyUpdateResult (env : Env σ π β υ α δ ρ) (changed : Bool) (policyData : δ) :
    M (State σ β δ ρ) Unit := do
  let desiredPolicyGen := env.GetGeneration policyData
  let r ← readStore (fun st => env.GetPolicy st desiredPolicyGen)
  match r with
  | .error err => raise ("Error while getting desiredPolicy: " ++ err)
  | .ok none => raise "Can't read policy right after updating it"
  | .ok (some desiredPolicy) =>
    let a ← readStore (fun st => env.GetActualState st)
    match a with
    | .error err => raise ("Error while getting actual state: " ++ err)
    | .ok actualState =>
      emit (Event.WriteOne (Payload.updateResult
        { Kind := PolicyUpdateResultKind, PolicyGeneration := desiredPolicyGen,
          PolicyChanged := changed, PlanAsText := env.PlanAsText desiredPolicy actualState }))

/-- The first loop of `handlePolicyUpdate`, over the objects of the request;
returns the policy reached. -/
def updateLoop (env : Env σ π β υ α δ ρ) (user : lang.User υ) :
    List (Base β) → π → M (State σ β δ ρ) π
  | [], policy => pure policy
  | obj :: rest, policy => do
    let r := env.PolicyAddObject policy obj
    let policy := r.1
    let errAdd := r.2
    emit (Event.AddObject obj errAdd)
    match errAdd with
    | some e => raise ("Error while adding updated object to policy: " ++ e)
    | none =>
      let errManage := (env.View policy user).ManageObject obj
      emit (Event.ManageObject obj errManage)
      match errManage with
      | some e => raise ("Error while adding updated object to policy: " ++ e)
      | none => updateLoop env user rest policy

/-- The second loop of `handlePolicyUpdate`: validate clusters using
corresponding cluster plugins. -/
def clusterLoop (env : Env σ π β υ α δ ρ) : List (Base β) → M (State σ β δ ρ) Unit
  | [] => pure ()
  | obj :: rest => do
    if obj.Dyn = GoType.Cluster then
      let cluster := obj
      match env.ForCluster cluster with
      | .error pluginErr =>
        emit (Event.ForCluster cluster (some pluginErr))
        raise ("Error while getting cluster plugin for cluster " ++ cluster.Name ++
          " of type " ++ env.ClusterType cluster ++ ": " ++ pluginErr)
      | .ok plugin =>
        emit (Event.ForCluster cluster none)
        let valErr := plugin.Validate
        emit (Event.PluginValidate cluster valErr)
        match valErr with
        | some e =>
          raise ("Error while validating cluster " ++ cluster.Name ++ " of type " ++
            env.ClusterType cluster ++ ": " ++ e)
        | none => pure ()
    clusterLoop env rest

/-- The handler of `POST policy`. -/
def handlePolicyUpdate (env : Env σ π β υ α δ ρ) (request : Request β υ) :
    M (State σ β δ ρ) Unit := do
  let objects ← ofOutcome request.Lang
  let user ← ofOutcome request.User
  -- Verify ACL for updated objects
  let r ← readStore (fun st => env.GetPolicy st env.LastGen)
  match r with
  | .error err => raise ("Error while loading current policy: " ++ err)
  | .ok none =>
    -- the policy is nil and the calls on it dereference it
    raise nilDeref
  | .ok (some policy) =>
    let policy ← updateLoop env user objects policy
    let err := env.PolicyValidate policy
    emit (Event.Validate err)
    match err with
    | some e => raise ("Updated policy is invalid: " ++ e)
    | none =>
      -- Validate clusters using corresponding cluster plugins if policy is valid
      clusterLoop env objects
      emit (Event.UpdatePolicy objects user.Name)
      let u ← writeStore (fun st => env.UpdatePolicy st objects user.Name)
      match u with
      | .error e => raise ("Error while updating policy: " ++ e)
      | .ok (changed, policyData) =>
        getPolicyUpdateResult env changed policyData
        if changed then
          -- signal to the channel that policy has changed
          emit (Event.PolicyChanged true)

/-- The loop of `handlePolicyDelete` over the objects of the request; returns
the policy reached. -/
def deleteLoop (env : Env σ π β υ α δ ρ) (user : lang.User υ) :
    List (Base β) → π → M (State σ β δ ρ) π
  | [], currentPolicy => pure currentPolicy
  | obj :: rest, currentPolicy => do
    let errManage := (env.View currentPolicy user).ManageObject obj
    emit (Event.ManageObject obj errManage)
    match errManage with
    | some e => raise ("Error while removing object from policy: " ++ e)
    | none =>
      emit (Event.RemoveObject obj)
      deleteLoop env user rest (env.PolicyRemoveObject currentPolicy obj)

/-- The handler of `DELETE policy`. -/
def handlePolicyDelete (env : Env σ π β υ α δ ρ) (request : Request β υ) :
    M (State σ β δ ρ) Unit := do
  let objects ← ofOutcome request.Lang
  let user ← ofOutcome request.User
  -- Verify ACL for updated objects
  let r ← readStore (fun st => env.GetPolicy st env.LastGen)
  match r with
  | .error err => raise ("Error while loading current policy: " ++ err)
  | .ok none =>
    -- the policy is nil and the calls on it dereference it
    raise nilDeref
  | .ok (some currentPolicy) =>
    let currentPolicy ← deleteLoop env user objects currentPolicy
    let err := env.PolicyValidate currentPolicy
    emit (Event.Validate err)
    match err with
    | some e => raise ("Updated policy is invalid: " ++ e)
    | none =>
      let a ← readStore (fun st => env.GetActualState st)
      match a with
      | .error e => raise ("Error while getting actual state: " ++ e)
      | .ok actualState =>
        let err := env.ActualStateValidate actualState currentPolicy
        emit (Event.ActualStateValidate err)
        match err with
        | some e => raise ("Updated policy is invalid: " ++ e)
        | none =>
          emit (Event.DeleteFromPolicy objects user.Name)
          let u ← writeStore (fun st => env.DeleteFromPolicy st objects user.Name)
          match u with
          | .error e => raise ("Error while deleting from policy: " ++ e)
          | .ok (changed, policyData) =>
            getPolicyUpdateResult env changed policyData
            if changed then
              -- signal to the channel that policy has changed
              emit (Event.PolicyChanged true)

/-- Run a handler on a store, from an empty record of calls. -/
def run (h : M (State σ β δ ρ) Unit) (store : σ) : State σ β δ ρ × Outcome Unit :=
  h { store := store, log := [] }

end handlers

/-! ### What the handlers guarantee, as predicates on handler steps -/

section guarantees

variable {σ β δ ρ α : Type}

/-- The step keeps the store, records neither a commit nor a signal and, when
it returns, has recorded no failed check. -/
def Checking (m : M (State σ β δ ρ) α) : Prop :=
  ∀ s : State σ β δ ρ, (m s).1.store = s.store ∧
    ∃ l : List (Event β δ ρ), (m s).1.log = s.log ++ l ∧
      (∀ e ∈ l, e.isCommit = false ∧ e.isSignal = false) ∧
      (∀ a : α, (m s).2 = Outcome.ret a → ∀ e ∈ l, e.isFailedCheck = false)

/-- The step records no failed check. -/
def NoFailedCheck (m : M (State σ β δ ρ) α) : Prop :=
  ∀ s : State σ β δ ρ, ∃ l : List (Event β δ ρ), (m s).1.log = s.log ++ l ∧
    ∀ e ∈ l, e.isFailedCheck = false

/-- Either the step records no failed check, or it panics having kept the
store and recorded neither a commit nor a signal. -/
def Guarded (m : M (State σ β δ ρ) α) : Prop :=
  ∀ s : State σ β δ ρ, ∃ l : List (Event β δ ρ), (m s).1.log = s.log ++ l ∧
    ((∀ e ∈ l, e.isFailedCheck = false) ∨
      ((m s).1.store = s.store ∧ (∀ e ∈ l, e.isCommit = false ∧ e.isSignal = false) ∧
        ∃ msg : String, (m s).2 = Outcome.panic msg))

end guarantees

end api

/-! ## pkg/slinga/lang/policy_namespace.go -/

namespace slinga

/-- What the package uses without declaring it. -/
structure Env (β ρ δ : Type) where
  /-- `ServiceObject.Kind` -/
  ServiceKind : String
  /-- `ContractObject.Kind` -/
  ContractKind : String
  /-- `ClusterObject.Kind` -/
  ClusterKind : String
  /-- `RuleObject.Kind` -/
  RuleKind : String
  /-- `DependencyObject.Kind` -/
  DependencyKind : String
  /-- `object.SystemNS` -/
  SystemNS : String
  /-- `NewGlobalRules()` -/
  NewGlobalRules : ρ
  /-- `NewGlobalDependencies()` -/
  NewGlobalDependencies : δ
  /-- `GlobalRules.addRule(rule)`: the rules after the call, which may panic -/
  addRule : ρ → Base β → ρ × Outcome Unit
  /-- `GlobalDependencies.AddDependency(dependency)` -/
  AddDependency : δ → Base β → δ × Outcome Unit
  /-- `obj.GetKey()` -/
  GetKey : Base β → String
  /-- the verb `%v` of `fmt` applied to an object -/
  FormatV : Base β → String

/-- PolicyNamespace describes a specific namespace in a policy. -/
structure PolicyNamespace (β ρ δ : Type) where
  Name : String
  Services : GoMap (Base β)
  Contracts : GoMap (Base β)
  Clusters : GoMap (Base β)
  Rules : ρ
  Dependencies : δ

section namespaceOps

variable {β ρ δ : Type}

/-- The constructor of a policy namespace. -/
def NewPolicyNamespace (env : Env β ρ δ) (name : String) : PolicyNamespace β ρ δ :=
  { Name := name, Services := [], Contracts := [], Clusters := [],
    Rules := env.NewGlobalRules, Dependencies := env.NewGlobalDependencies }

/-- The method `addObject`: the namespace after the call, and whether the call
returned or panicked. -/
def PolicyNamespace.addObject (env : Env β ρ δ) (policyNamespace : PolicyNamespace β ρ δ)
    (obj : Base β) : PolicyNamespace β ρ δ × Outcome Unit :=
  let kind := obj.Kind
  if kind = env.ServiceKind then
    if obj.Dyn = GoType.Service then
      ({ policyNamespace with Services := policyNamespace.Services.set obj.Name obj },
        Outcome.ret ())
    else (policyNamespace, Outcome.panic badAssert)
  else if kind = env.ContractKind then
    if obj.Dyn = GoType.Contract then
      ({ policyNamespace with Contracts := policyNamespace.Contracts.set obj.Name obj },
        Outcome.ret ())
    else (policyNamespace, Outcome.panic badAssert)
  else if kind = env.ClusterKind then
    if obj.Namespace ≠ env.SystemNS then
      (policyNamespace, Outcome.panic ("Adding cluster '" ++ env.GetKey obj ++
        "' into a non-system namespace '" ++ obj.Namespace ++ "'"))
    else if obj.Dyn = GoType.Cluster then
      ({ policyNamespace with Clusters := policyNamespace.Clusters.set obj.Name obj },
        Outcome.ret ())
    else (policyNamespace, Outcome.panic badAssert)
  else if kind = env.RuleKind then
    if obj.Dyn = GoType.Rule then
      let r := env.addRule policyNamespace.Rules obj
      ({ policyNamespace with Rules := r.1 }, r.2)
    else (policyNamespace, Outcome.panic badAssert)
  else if kind = env.DependencyKind then
    if obj.Dyn = GoType.Dependency then
      let r := env.AddDependency policyNamespace.Dependencies obj
      ({ policyNamespace with Dependencies := r.1 }, r.2)
    else (policyNamespace, Outcome.panic badAssert)
  else
    (policyNamespace, Outcome.panic ("Can't add object to policy namespace: " ++
      env.FormatV obj))

/-- The method `getObject`: the object found, `none` for nil. -/
def PolicyNamespace.getObject (env : Env β ρ δ) (policyNamespace : PolicyNamespace β ρ δ)
    (kind name : String) : Outcome (Option (Base β)) :=
  if kind = env.ServiceKind then Outcome.ret (policyNamespace.Services.get name)
  else if kind = env.ContractKind then Outcome.ret (policyNamespace.Contracts.get name)
  else if kind = env.ClusterKind then Outcome.ret (policyNamespace.Clusters.get name)
  else if kind = env.RuleKind then
    Outcome.panic ("Rule not supported here. Can't get object from policy namespace by " ++
      "kind and name: " ++ kind ++ ", " ++ name)
  else if kind = env.DependencyKind then
    Outcome.panic ("Dependency not supported here. Can't get object from policy " ++
      "namespace by kind and name: " ++ kind ++ ", " ++ name)
  else
    Outcome.panic ("Can't get object from policy namespace by kind and name: " ++ kind ++
      ", " ++ name)

/-- A sequence of `addObject` calls, one per object of the list; it ends at the
first call that panics. -/
def addObjects (env : Env β ρ δ) :
    PolicyNamespace β ρ δ → List (Base β) → PolicyNamespace β ρ δ × Outcome Unit
  | policyNamespace, [] => (policyNamespace, Outcome.ret ())
  | policyNamespace, obj :: rest =>
    match policyNamespace.addObject env obj with
    | (next, Outcome.ret _) => addObjects env next rest
    | (next, Outcome.panic msg) => (next, Outcome.panic msg)

/-- The objects of a sequence of `addObject` calls whose call returned: those
before the first call that panics. -/
def addedObjects (env : Env β ρ δ) :
    PolicyNamespace β ρ δ → List (Base β) → List (Base β)
  | _, [] => []
  | policyNamespace, obj :: rest =>
    match policyNamespace.addObject env obj with
    | (next, Outcome.ret _) => obj :: addedObjects env next rest
    | (_, Outcome.panic _) => []

/-- The object of kind `kind` and name `name` most recently added, in a list
of objects given in the order they were added; `none` when there is none. -/
def lastAdded (kind name : String) : List (Base β) → Option (Base β)
  | [] => none
  | obj :: rest =>
    match lastAdded kind name rest with
    | some later => some later
    | none => if obj.Kind = kind ∧ obj.Name = name then some obj else none

/-- The kind is one of the three kinds `getObject` serves. -/
def Served (env : Env β ρ δ) (kind : String) : Prop :=
  kind = env.ServiceKind ∨ kind = env.ContractKind ∨ kind = env.ClusterKind

end namespaceOps

end slinga

end Aptomi

/-! # Examples

Concrete policies, users and resolvers on which the theorems below are
evaluated. -/

namespace Aptomi

namespace lang

/-- A policy as the list of its objects, the last added first. -/
abbrev ListPolicy := List (Base Unit)

/-- An environment in which `Policy.AddObject` puts the object in front and never fails. -/
def exEnv : Env ListPolicy Unit :=
  { PolicyAddObject := fun p o => (o :: p, none), ClaimKind := "claim", ZeroBody := () }

/-- The user `alice`. -/
def alice : User Unit := { Name := "alice", Rest := () }

/-- A resolver which lets everybody view the namespace `ns1`, and manage nothing. -/
def viewOnly : ACLResolver Unit Unit :=
  { GetUserPrivileges := fun _ o =>
      Except.ok { View := decide (o.Namespace = "ns1"), Manage := false } }

/-- A resolver which lets everybody manage the namespace `ns1`. -/
def manageNs1 : ACLResolver Unit Unit :=
  { GetUserPrivileges := fun _ o =>
      Except.ok { View := true, Manage := decide (o.Namespace = "ns1") } }

/-- A service `web` in the namespace `ns1`, as an object. -/
def webObj : Base Unit :=
  { Dyn := GoType.Service, Kind := "service", Namespace := "ns1", Name := "web", Body := () }

/-- The service `web` of the namespace `ns1`. -/
def web : Service Unit := { Kind := "service", Namespace := "ns1", Name := "web", Body := () }

/-- The service `db` of the namespace `ns1`. -/
def db : Service Unit := { Kind := "service", Namespace := "ns1", Name := "db", Body := () }

end lang

namespace component

/-- A desired policy as the list of its objects. -/
abbrev ListPolicy := List (Base Unit)

/-- An environment: objects are looked up by kind, name and namespace; every
service has the one component `main` with code of type `helm`; the event log is
a list of lines; `deleteComponentFromActualState` erases the key. -/
def exEnv : Env ListPolicy Unit String (List String) :=
  { ServiceKind := "service", ClusterKind := "cluster", SystemNS := "system",
    GetObject := fun p kind name ns =>
      Except.ok (p.find? (fun o => decide (o.Kind = kind ∧ o.Name = name ∧ o.Namespace = ns))),
    GetComponentsMap := fun _ => [("main", { Name := "main", Code := some { CodeType := "helm" } })],
    LogInfo := fun w _ _ _ msg => w ++ [msg],
    deleteComponentFromActualState := fun key c =>
      ({ c with ActualState :=
          { ComponentInstanceMap :=
              c.ActualState.ComponentInstanceMap.filter (fun e => decide (e.1 ≠ key)) } },
        Outcome.ret none) }

/-- The desired policy: the service `web` of `ns1` and the cluster `c1`. -/
def exPolicy : ListPolicy :=
  [{ Dyn := GoType.Service, Kind := "service", Namespace := "ns1", Name := "web", Body := () },
   { Dyn := GoType.Cluster, Kind := "cluster", Namespace := "system", Name := "c1", Body := () }]

/-- A registry whose code plugin fails to destroy the deployment `broken`. -/
def exPlugins : PluginRegistry Unit String (List String) :=
  { ForCodeType := fun _ _ =>
      Except.ok { Destroy := fun name _ w =>
        (w ++ ["destroy " ++ name],
          if name = "broken" then some "release not found" else none) } }

/-- The instance of the component `main` of `web`, deployed on `c1` as `broken`. -/
def exInstance : ComponentInstance String :=
  { Key := { Namespace := "ns1", ServiceName := "web", ComponentName := "main" },
    CalculatedCodeParams := "params", Cluster := "c1", DeployName := "broken",
    KeyString := "ns1#web#main" }

/-- A context whose actual state holds `exInstance` under the key `k1`. -/
def exContext : Context ListPolicy Unit String (List String) :=
  { DesiredPolicy := exPolicy, ActualState := { ComponentInstanceMap := [("k1", exInstance)] },
    Plugins := exPlugins, World := [] }

/-- A context whose actual state is empty. -/
def emptyContext : Context ListPolicy Unit String (List String) :=
  { DesiredPolicy := exPolicy, ActualState := { ComponentInstanceMap := [] },
    Plugins := exPlugins, World := [] }

end component

namespace api

/-- A store as the objects of the current policy and its generation. -/
abbrev ListStore := List (Base Unit) × Nat

/-- The resolver of a policy given as a list of objects: a user manages and
views every object once the policy holds an ACL rule bearing the name of the user. -/
def aclOf (policy : List (Base Unit)) : lang.ACLResolver Unit Unit :=
  { GetUserPrivileges := fun user _ =>
      Except.ok
        { View := policy.any (fun o => decide (o.Dyn = GoType.ACLRule ∧ o.Name = user.Name)),
          Manage := policy.any (fun o => decide (o.Dyn = GoType.ACLRule ∧ o.Name = user.Name)) } }

/-- An environment over `ListStore`: generation `0` stands for the last one,
an update puts its objects in front and a deletion erases them, both making a
new generation; validations and plugins never fail. -/
def exEnv : Env ListStore (List (Base Unit)) Unit Unit Unit Nat String :=
  { LastGen := 0,
    ParseGeneration := fun s =>
      if s = "0" then Outcome.ret 0
      else if s = "1" then Outcome.ret 1
      else if s = "2" then Outcome.ret 2
      else Outcome.panic "invalid generation",
    GetPolicyData := fun st g => Except.ok (if g = 0 ∨ g = st.2 then some st.2 else none),
    GetPolicy := fun st g => Except.ok (if g = 0 ∨ g = st.2 then some st.1 else none),
    GetActualState := fun _ => Except.ok (),
    UpdatePolicy := fun st objs _ => ((objs.reverse ++ st.1, st.2 + 1), Except.ok (true, st.2 + 1)),
    DeleteFromPolicy := fun st objs _ =>
      ((st.1.filter (fun o => decide (o ∉ objs)), st.2 + 1), Except.ok (true, st.2 + 1)),
    PolicyAddObject := fun p o => (o :: p, none),
    PolicyRemoveObject := fun p o => p.filter (fun x => decide (x ≠ o)),
    PolicyValidate := fun _ => none,
    PolicyGetObject := fun p kind name ns =>
      Except.ok (p.find? (fun o => decide (o.Kind = kind ∧ o.Name = name ∧ o.Namespace = ns))),
    View := fun p user => lang.NewPolicyView p user (aclOf p),
    ForCluster := fun _ => Except.ok { Validate := none },
    ClusterType := fun _ => "kubernetes",
    ActualStateValidate := fun _ _ => none,
    GetGeneration := fun d => d,
    PlanAsText := fun _ _ => "" }

/-- The user `mallory`. -/
def mallory : lang.User Unit := { Name := "mallory", Rest := () }

/-- An ACL rule bearing the name `mallory`. -/
def malloryRule : Base Unit :=
  { Dyn := GoType.ACLRule, Kind := "aclrule", Namespace := "system", Name := "mallory",
    Body := () }

/-- A store at generation `1` whose policy holds the service `web` and no ACL rule. -/
def exStore : ListStore := ([lang.webObj], 1)

/-- The request of `mallory` about the service `web`. -/
def webRequest : Request Unit Unit :=
  { Lang := Outcome.ret [lang.webObj], User := Outcome.ret mallory }

/-- The request of `mallory` carrying the ACL rule `malloryRule`. -/
def ruleRequest : Request Unit Unit :=
  { Lang := Outcome.ret [malloryRule], User := Outcome.ret mallory }

/-- The parameters naming the object `ns1/service/nope`, in the last generation. -/
def absentObject : Params := [("ns", "ns1"), ("kind", "service"), ("name", "nope")]

end api

namespace slinga

/-- An environment with the kinds and the system namespace of the repository;
rules and dependencies are kept as lists. -/
def exEnv : Env Unit (List (Base Unit)) (List (Base Unit)) :=
  { ServiceKind := "service", ContractKind := "contract", ClusterKind := "cluster",
    RuleKind := "rule", DependencyKind := "dependency", SystemNS := "system",
    NewGlobalRules := [], NewGlobalDependencies := [],
    addRule := fun r o => (o :: r, Outcome.ret ()),
    AddDependency := fun d o => (o :: d, Outcome.ret ()),
    GetKey := fun o => o.Namespace ++ "/" ++ o.Kind ++ "/" ++ o.Name,
    FormatV := fun o => o.Name }

/-- A cluster `c1` in the system namespace. -/
def systemCluster : Base Unit :=
  { Dyn := GoType.Cluster, Kind := "cluster", Namespace := "system", Name := "c1", Body := () }

/-- A cluster `c2` in the namespace `main`. -/
def strayCluster : Base Unit :=
  { Dyn := GoType.Cluster, Kind := "cluster", Namespace := "main", Name := "c2", Body := () }

/-- A service `web` in the namespace `main`. -/
def webService : Base Unit :=
  { Dyn := GoType.Service, Kind := "service", Namespace := "main", Name := "web", Body := () }

/-- A second service named `web`, which differs from `webService` by its
namespace field. -/
def webService2 : Base Unit :=
  { Dyn := GoType.Service, Kind := "service", Namespace := "other", Name := "web", Body := () }

/-- A contract named `web`. -/
def webContract : Base Unit :=
  { Dyn := GoType.Contract, Kind := "contract", Namespace := "main", Name := "web", Body := () }

end slinga

end Aptomi

/-! # Theorems -/

namespace Aptomi

namespace lang

section policyView

variable {π β υ : Type}

/-- C1: `ManageObject` returns no error if and only if the resolver returns,
without error, a privilege with `Manage == true` for the user of the view and
the object; in every other case it returns an error. -/
theorem ManageObject_nil_iff (view : PolicyView π β υ) (obj : Base β) :
    (view.ManageObject obj = none ↔
      ∃ p : Privilege,
        view.Resolver.GetUserPrivileges view.User obj = Except.ok p ∧ p.Manage = true) ∧
    (view.ManageObject obj = none ∨ ∃ e : String, view.ManageObject obj = some e) := by
  unfold PolicyView.ManageObject
  cases h : view.Resolver.GetUserPrivileges view.User obj with
  | error err => simp
  | ok p => cases hm : p.Manage <;> simp [hm]

/-- C2: when the resolver grants Manage, `AddObject` is the underlying
`Policy.AddObject` (its policy and its error); when it does not, or fails,
`AddObject` returns an error and the view, with its policy, is as it was. -/
theorem AddObject_checks_then_acts (env : Env π β) (view : PolicyView π β υ) (obj : Base β) :
    ((∃ p : Privilege,
        view.Resolver.GetUserPrivileges view.User obj = Except.ok p ∧ p.Manage = true) ∧
      (view.AddObject env obj).1.Policy = (env.PolicyAddObject view.Policy obj).1 ∧
      (view.AddObject env obj).2 = (env.PolicyAddObject view.Policy obj).2) ∨
    ((¬ ∃ p : Privilege,
        view.Resolver.GetUserPrivileges view.User obj = Except.ok p ∧ p.Manage = true) ∧
      (view.AddObject env obj).1.Policy = view.Policy ∧
      (∃ e : String, (view.AddObject env obj).2 = some e) ∧
      ∀ env2 : Env π β, view.AddObject env2 obj = view.AddObject env obj) := by
  unfold PolicyView.AddObject
  cases h : view.Resolver.GetUserPrivileges view.User obj with
  | error err => simp
  | ok p => cases hm : p.Manage <;> simp [hm]

/-- The scenario of C2: `alice` may only view the namespace `ns1`; her
`AddObject` of the service `web` of `ns1` fails with the ACL error and the
service is not in the policy. -/
theorem AddObject_view_only :
    ((NewPolicyView ([] : ListPolicy) alice viewOnly).ViewObject webObj = none) ∧
    ((NewPolicyView ([] : ListPolicy) alice viewOnly).AddObject exEnv webObj).2 =
      some "user 'alice' doesn't have ACL permissions to manage object 'ns1/service/web'" ∧
    webObj ∉ ((NewPolicyView ([] : ListPolicy) alice viewOnly).AddObject exEnv webObj).1.Policy ∧
    webObj ∈ ((NewPolicyView ([] : ListPolicy) alice manageNs1).AddObject exEnv webObj).1.Policy := by
  refine ⟨by decide, by decide, by decide, by decide⟩

/-- C3: `CanConsume` returns `(true, nil)` exactly when the resolver grants
Manage on the synthetic claim, which carries the namespace of the service and
nothing else of it; otherwise it returns `false` with an error. Hence two
services of one namespace get the same boolean and fail or succeed alike. -/
theorem CanConsume_by_namespace (env : Env π β) (view : PolicyView π β υ)
    (s1 s2 : Service β) (hns : s1.Namespace = s2.Namespace) :
    syntheticClaim env s1 =
      { Dyn := GoType.Claim, Kind := env.ClaimKind, Namespace := s1.Namespace, Name := "",
        Body := env.ZeroBody } ∧
    (view.CanConsume env s1 = (true, none) ↔
      ∃ p : Privilege,
        view.Resolver.GetUserPrivileges view.User (syntheticClaim env s1) = Except.ok p ∧
          p.Manage = true) ∧
    (view.CanConsume env s1 = (true, none) ∨
      ∃ e : String, view.CanConsume env s1 = (false, some e)) ∧
    (view.CanConsume env s1).1 = (view.CanConsume env s2).1 ∧
    ((view.CanConsume env s1).2 = none ↔ (view.CanConsume env s2).2 = none) := by
  have hc : syntheticClaim env s2 = syntheticClaim env s1 := by
    simp [syntheticClaim, hns]
  unfold PolicyView.CanConsume
  simp only [hc]
  refine ⟨rfl, ?_⟩
  cases h : view.Resolver.GetUserPrivileges view.User (syntheticClaim env s1) with
  | error err => simp
  | ok p => cases hm : p.Manage <;> simp [hm]

/-- Witness for C3: under a resolver granting Manage on the namespace `ns1`,
`alice` can consume both `web` and `db`. -/
theorem CanConsume_by_namespace_witness :
    web.Namespace = db.Namespace ∧
    (NewPolicyView ([] : ListPolicy) alice manageNs1).CanConsume exEnv web = (true, none) ∧
    ((NewPolicyView ([] : ListPolicy) alice manageNs1).CanConsume exEnv web).1 =
      ((NewPolicyView ([] : ListPolicy) alice manageNs1).CanConsume exEnv db).1 :=
  ⟨rfl, by decide,
    (CanConsume_by_namespace exEnv (NewPolicyView ([] : ListPolicy) alice manageNs1) web db
      rfl).2.2.2.1⟩

end policyView

end lang


namespace component

section deleteAction

variable {π β γ ω : Type}

/-- The deployment step does not touch the actual state. -/
theorem processDeployment_actualState (env : Env π β γ ω) (a : DeleteAction)
    (context : Context π β γ ω) :
    (a.processDeployment env context).1.ActualState = context.ActualState := by
  unfold DeleteAction.processDeployment
  repeat' first
    | rfl
    | split
    | (dsimp only; done)
    | dsimp only

/-- The deployment step panics when the key is not in the actual state. -/
theorem processDeployment_absent (env : Env π β γ ω) (a : DeleteAction)
    (context : Context π β γ ω)
    (h : context.ActualState.ComponentInstanceMap.get a.ComponentKey = none) :
    a.processDeployment env context = (context, Outcome.panic nilDeref) := by
  unfold DeleteAction.processDeployment
  simp [h]

/-- `Apply` panics, with a nil pointer dereference, whenever the key of the
action is not in the actual state; the actual state is as it was. -/
theorem Apply_absent (env : Env π β γ ω) (a : DeleteAction) (context : Context π β γ ω)
    (h : context.ActualState.ComponentInstanceMap.get a.ComponentKey = none) :
    a.Apply env context = (context, Outcome.panic nilDeref) := by
  unfold DeleteAction.Apply
  rw [processDeployment_absent env a context h]

/-- C4 (the code at the failing input): applying a delete action for the key
`k` to an empty actual state panics with a nil pointer dereference instead of
returning nil. -/
theorem Apply_absent_instance_panics :
    emptyContext.ActualState.ComponentInstanceMap.get (NewDeleteAction "k").ComponentKey = none ∧
    ((NewDeleteAction "k").Apply exEnv emptyContext).2 = Outcome.panic nilDeref ∧
    ((NewDeleteAction "k").Apply exEnv emptyContext).2 ≠ Outcome.ret none := by
  refine ⟨rfl, ?_, ?_⟩
  · rw [Apply_absent exEnv (NewDeleteAction "k") emptyContext rfl]
  · rw [Apply_absent exEnv (NewDeleteAction "k") emptyContext rfl]
    simp

/-- The message of `Apply` contains the key. -/
theorem deleteErr_contains_key (componentKey err : String) :
    Contains (deleteErr componentKey err) componentKey :=
  ⟨"unable to delete component instance '", "': " ++ err, by
    simp [deleteErr, String.append_assoc]⟩

/-- The message of `Apply` contains the text of the underlying error. -/
theorem deleteErr_contains_err (componentKey err : String) :
    Contains (deleteErr componentKey err) err :=
  ⟨"unable to delete component instance '" ++ componentKey ++ "': ", "", by
    simp [deleteErr]⟩

/-- C5: whenever the deployment step of `Apply` returns an error, `Apply`
returns an error whose message contains the key of the action and the text of
that error, the actual state is as it was and the instance is still in it. -/
theorem Apply_deployment_error (env : Env π β γ ω) (a : DeleteAction)
    (context : Context π β γ ω) (err : String)
    (h : (a.processDeployment env context).2 = Outcome.ret (some err)) :
    (a.Apply env context).2 = Outcome.ret (some (deleteErr a.ComponentKey err)) ∧
    Contains (deleteErr a.ComponentKey err) a.ComponentKey ∧
    Contains (deleteErr a.ComponentKey err) err ∧
    (a.Apply env context).1.ActualState = context.ActualState ∧
    ∃ inst : ComponentInstance γ,
      (a.Apply env context).1.ActualState.ComponentInstanceMap.get a.ComponentKey =
        some inst := by
  have hst := processDeployment_actualState env a context
  have happly : a.Apply env context =
      ((a.processDeployment env context).1,
        Outcome.ret (some (deleteErr a.ComponentKey err))) := by
    unfold DeleteAction.Apply
    cases hp : a.processDeployment env context with
    | mk c o =>
      rw [hp] at h
      simp only at h
      subst h
      rfl
  refine ⟨by rw [happly], deleteErr_contains_key _ _, deleteErr_contains_err _ _,
    by rw [happly]; exact hst, ?_⟩
  rw [happly]
  simp only [hst]
  cases hg : context.ActualState.ComponentInstanceMap.get a.ComponentKey with
  | some inst => exact ⟨inst, rfl⟩
  | none =>
    rw [processDeployment_absent env a context hg] at h
    simp at h

/-- Witness for C5: the plugin fails to destroy the deployment `broken`. -/
theorem Apply_deployment_error_witness :
    ((NewDeleteAction "k1").processDeployment exEnv exContext).2 =
      Outcome.ret (some "release not found") ∧
    ((NewDeleteAction "k1").Apply exEnv exContext).2 =
      Outcome.ret (some "unable to delete component instance 'k1': release not found") ∧
    ((NewDeleteAction "k1").Apply exEnv exContext).1.ActualState = exContext.ActualState :=
  ⟨by decide,
    (Apply_deployment_error exEnv (NewDeleteAction "k1") exContext "release not found"
      (by decide)).1,
    (Apply_deployment_error exEnv (NewDeleteAction "k1") exContext "release not found"
      (by decide)).2.2.2.1⟩

/-- Each of the six failures makes the deployment step return its error. -/
theorem processDeployment_of_failure (env : Env π β γ ω) (a : DeleteAction)
    (context : Context π β γ ω) (err : String) (h : DeploymentFailure env a context err) :
    (a.processDeployment env context).2 = Outcome.ret (some err) := by
  unfold DeleteAction.processDeployment
  cases h with
  | serviceLookup inst err hinst hsvc => simp [hinst, hsvc]
  | noClusterName inst serviceObj component code hinst hsvc hdyn hcomp hcode hname =>
    simp [hinst, hsvc, hdyn, hcomp, hcode, hname]
  | clusterLookup inst serviceObj component code err hinst hsvc hdyn hcomp hcode hname hcl =>
    simp [hinst, hsvc, hdyn, hcomp, hcode, hname, hcl]
  | clusterAbsent inst serviceObj component code hinst hsvc hdyn hcomp hcode hname hcl =>
    simp [hinst, hsvc, hdyn, hcomp, hcode, hname, hcl]
  | noCodePlugin inst serviceObj component code clusterObj err hinst hsvc hdyn hcomp hcode
      hname hcl hcdyn hplugin =>
    simp [hinst, hsvc, hdyn, hcomp, hcode, hname, hcl, hcdyn, hplugin]
  | destroy inst serviceObj component code clusterObj plugin err hinst hsvc hdyn hcomp hcode
      hname hcl hcdyn hplugin hdestroy =>
    simp [hinst, hsvc, hdyn, hcomp, hcode, hname, hcl, hcdyn, hplugin, hdestroy]

/-- An error returned by the deployment step comes from one of the six failures. -/
theorem failure_of_processDeployment (env : Env π β γ ω) (a : DeleteAction)
    (context : Context π β γ ω) (err : String)
    (h : (a.processDeployment env context).2 = Outcome.ret (some err)) :
    DeploymentFailure env a context err := by
  unfold DeleteAction.processDeployment at h
  split at h
  · simp at h
  · rename_i inst hinst
    split at h
    · rename_i e hsvc
      simp at h
      subst h
      exact DeploymentFailure.serviceLookup inst _ hinst hsvc
    · simp at h
    · rename_i serviceObj hsvc
      split at h
      · simp at h
      · rename_i hdyn
        split at h
        · simp at h
        · rename_i component hcomp
          split at h
          · simp at h
          · rename_i code hcode
            dsimp only at h
            split at h
            · rename_i hname
              simp at h
              subst h
              exact DeploymentFailure.noClusterName inst serviceObj component code hinst hsvc
                (not_not.mp hdyn) hcomp hcode hname
            · rename_i hname
              split at h
              · rename_i e hcl
                simp at h
                subst h
                exact DeploymentFailure.clusterLookup inst serviceObj component code _ hinst hsvc
                  (not_not.mp hdyn) hcomp hcode hname hcl
              · rename_i hcl
                simp at h
                subst h
                exact DeploymentFailure.clusterAbsent inst serviceObj component code hinst hsvc
                  (not_not.mp hdyn) hcomp hcode hname hcl
              · rename_i clusterObj hcl
                split at h
                · simp at h
                · rename_i hcdyn
                  split at h
                  · rename_i e hplugin
                    simp at h
                    subst h
                    exact DeploymentFailure.noCodePlugin inst serviceObj component code
                      clusterObj _ hinst hsvc (not_not.mp hdyn) hcomp hcode hname hcl
                      (not_not.mp hcdyn) hplugin
                  · rename_i plugin hplugin
                    simp at h
                    exact DeploymentFailure.destroy inst serviceObj component code clusterObj
                      plugin err hinst hsvc (not_not.mp hdyn) hcomp hcode hname hcl
                      (not_not.mp hcdyn) hplugin h

end deleteAction

end component


namespace api

section handlerLemmas

variable {σ π β υ α δ ρ : Type} {τ τ2 : Type}

/-- Sequencing after a step which returns. -/
theorem bind_ret (m : M (State σ β δ ρ) τ) (f : τ → M (State σ β δ ρ) τ2)
    (s s1 : State σ β δ ρ) (a : τ) (h : m s = (s1, Outcome.ret a)) :
    (m >>= f) s = f a s1 := by
  show M.bind m f s = f a s1
  simp [M.bind, h]

/-- Sequencing after a step which panics. -/
theorem bind_panic (m : M (State σ β δ ρ) τ) (f : τ → M (State σ β δ ρ) τ2)
    (s s1 : State σ β δ ρ) (msg : String) (h : m s = (s1, Outcome.panic msg)) :
    (m >>= f) s = (s1, Outcome.panic msg) := by
  show M.bind m f s = (s1, Outcome.panic msg)
  simp [M.bind, h]

/-- Returning a value is a checking step. -/
theorem Checking_pure (a : τ) : Checking (pure a : M (State σ β δ ρ) τ) := by
  intro s
  exact ⟨rfl, [], by simp [pure, M.pure], by simp, by simp⟩

/-- A panic is a checking step. -/
theorem Checking_raise (msg : String) : Checking (raise msg : M (State σ β δ ρ) τ) := by
  intro s
  exact ⟨rfl, [], by simp [raise], by simp, by simp [raise]⟩

/-- A call which does not act on the state is a checking step. -/
theorem Checking_ofOutcome (o : Outcome τ) : Checking (ofOutcome o : M (State σ β δ ρ) τ) := by
  intro s
  exact ⟨rfl, [], by simp [ofOutcome], by simp, by simp⟩

/-- Reading the store is a checking step. -/
theorem Checking_readStore (f : σ → τ) : Checking (readStore f : M (State σ β δ ρ) τ) := by
  intro s
  exact ⟨rfl, [], by simp [readStore], by simp, by simp⟩

/-- Recording a call which is no commit, no signal and no failed check is a checking step. -/
theorem Checking_emit (e : Event β δ ρ) (hc : e.isCommit = false) (hs : e.isSignal = false)
    (hf : e.isFailedCheck = false) : Checking (emit e : M (State σ β δ ρ) Unit) := by
  intro s
  refine ⟨rfl, [e], by simp [emit], ?_, ?_⟩
  · intro e1 he1
    simp at he1
    subst he1
    exact ⟨hc, hs⟩
  · intro _ _ e1 he1
    simp at he1
    subst he1
    exact hf

/-- Recording a call and panicking at once is a checking step. -/
theorem Checking_emit_raise (e : Event β δ ρ) (msg : String) (hc : e.isCommit = false)
    (hs : e.isSignal = false) :
    Checking ((emit e : M (State σ β δ ρ) Unit) >>= fun _ => (raise msg : M (State σ β δ ρ) τ)) := by
  intro s
  have h : ((emit e : M (State σ β δ ρ) Unit) >>= fun _ => (raise msg : M (State σ β δ ρ) τ)) s
      = ({ s with log := s.log ++ [e] }, Outcome.panic msg) := by
    rw [bind_ret _ _ s { s with log := s.log ++ [e] } () rfl]
    rfl
  rw [h]
  refine ⟨rfl, [e], rfl, ?_, ?_⟩
  · intro e1 he1
    simp at he1
    subst he1
    exact ⟨hc, hs⟩
  · intro a ha
    simp at ha

/-- Checking steps in sequence make a checking step. -/
theorem Checking_bind (m : M (State σ β δ ρ) τ) (f : τ → M (State σ β δ ρ) τ2)
    (hm : Checking m) (hf : ∀ a, Checking (f a)) : Checking (m >>= f) := by
  intro s
  obtain ⟨hst, l, hl, hcs, hfc⟩ := hm s
  cases hms : m s with
  | mk s1 o =>
    rw [hms] at hst hl hfc
    simp only at hst hl hfc
    cases o with
    | panic msg =>
      rw [bind_panic m f s s1 msg hms]
      exact ⟨hst, l, hl, hcs, by simp⟩
    | ret a =>
      rw [bind_ret m f s s1 a hms]
      obtain ⟨hst2, l2, hl2, hcs2, hfc2⟩ := hf a s1
      refine ⟨by rw [hst2, hst], l ++ l2, by rw [hl2, hl, List.append_assoc], ?_, ?_⟩
      · intro e he
        rcases List.mem_append.mp he with h | h
        · exact hcs e h
        · exact hcs2 e h
      · intro b hb e he
        rcases List.mem_append.mp he with h | h
        · exact hfc a rfl e h
        · exact hfc2 b hb e h

/-- The first loop of `handlePolicyUpdate` is a checking step. -/
theorem Checking_updateLoop (env : Env σ π β υ α δ ρ) (user : lang.User υ) (objs : List (Base β)) :
    ∀ policy : π, Checking (updateLoop env user objs policy) := by
  induction objs with
  | nil => intro policy; exact Checking_pure policy
  | cons obj rest ih =>
    intro policy
    unfold updateLoop
    dsimp only
    generalize (env.PolicyAddObject policy obj).2 = errAdd
    generalize (env.PolicyAddObject policy obj).1 = policy1
    cases errAdd with
    | some e => exact Checking_emit_raise _ _ rfl rfl
    | none =>
      refine Checking_bind _ _ (Checking_emit _ rfl rfl rfl) (fun _ => ?_)
      dsimp only
      generalize (env.View policy1 user).ManageObject obj = errManage
      cases errManage with
      | some e => exact Checking_emit_raise _ _ rfl rfl
      | none => exact Checking_bind _ _ (Checking_emit _ rfl rfl rfl) (fun _ => ih policy1)

/-- The loop of `handlePolicyDelete` is a checking step. -/
theorem Checking_deleteLoop (env : Env σ π β υ α δ ρ) (user : lang.User υ) (objs : List (Base β)) :
    ∀ policy : π, Checking (deleteLoop env user objs policy) := by
  induction objs with
  | nil => intro policy; exact Checking_pure policy
  | cons obj rest ih =>
    intro policy
    unfold deleteLoop
    dsimp only
    generalize (env.View policy user).ManageObject obj = errManage
    cases errManage with
    | some e => exact Checking_emit_raise _ _ rfl rfl
    | none =>
      exact Checking_bind _ _ (Checking_emit _ rfl rfl rfl) (fun _ =>
        Checking_bind _ _ (Checking_emit _ rfl rfl rfl) (fun _ => ih _))

/-- Nothing runs after a panic. -/
theorem raise_bind (msg : String) (f : τ → M (State σ β δ ρ) τ2) :
    ((raise msg : M (State σ β δ ρ) τ) >>= f) = raise msg := by
  funext s
  exact bind_panic _ _ s s msg rfl

/-- Sequencing after a returned value. -/
theorem pure_bind_M (a : τ) (f : τ → M (State σ β δ ρ) τ2) :
    ((pure a : M (State σ β δ ρ) τ) >>= f) = f a := by
  funext s
  exact bind_ret _ _ s s a rfl

/-- The second loop of `handlePolicyUpdate` is a checking step. -/
theorem Checking_clusterLoop (env : Env σ π β υ α δ ρ) (objs : List (Base β)) :
    Checking (clusterLoop env objs) := by
  induction objs with
  | nil => exact Checking_pure ()
  | cons obj rest ih =>
    unfold clusterLoop
    dsimp only
    split
    · cases env.ForCluster obj with
      | error e =>
        dsimp only
        rw [raise_bind]
        exact Checking_emit_raise _ _ rfl rfl
      | ok plugin =>
        dsimp only
        refine Checking_bind _ _ (Checking_emit _ rfl rfl rfl) (fun _ => ?_)
        generalize plugin.Validate = valErr
        cases valErr with
        | some e =>
          dsimp only
          rw [raise_bind]
          exact Checking_emit_raise _ _ rfl rfl
        | none =>
          dsimp only
          rw [pure_bind_M]
          exact Checking_bind _ _ (Checking_emit _ rfl rfl rfl) (fun _ => ih)
    · rw [pure_bind_M]
      exact ih

/-- Returning a value records no failed check. -/
theorem NoFailedCheck_pure (a : τ) : NoFailedCheck (pure a : M (State σ β δ ρ) τ) := by
  intro s
  exact ⟨[], by simp [pure, M.pure], by simp⟩

/-- A panic records no failed check. -/
theorem NoFailedCheck_raise (msg : String) :
    NoFailedCheck (raise msg : M (State σ β δ ρ) τ) := by
  intro s
  exact ⟨[], by simp [raise], by simp⟩

/-- Reading the store records no failed check. -/
theorem NoFailedCheck_readStore (f : σ → τ) :
    NoFailedCheck (readStore f : M (State σ β δ ρ) τ) := by
  intro s
  exact ⟨[], by simp [readStore], by simp⟩

/-- Writing the store records no failed check. -/
theorem NoFailedCheck_writeStore (f : σ → σ × τ) :
    NoFailedCheck (writeStore f : M (State σ β δ ρ) τ) := by
  intro s
  exact ⟨[], by simp [writeStore], by simp⟩

/-- Recording a call which is no failed check records no failed check. -/
theorem NoFailedCheck_emit (e : Event β δ ρ) (hf : e.isFailedCheck = false) :
    NoFailedCheck (emit e : M (State σ β δ ρ) Unit) := by
  intro s
  refine ⟨[e], by simp [emit], ?_⟩
  intro e1 he1
  simp at he1
  subst he1
  exact hf

/-- Steps without failed check in sequence record no failed check. -/
theorem NoFailedCheck_bind (m : M (State σ β δ ρ) τ) (f : τ → M (State σ β δ ρ) τ2)
    (hm : NoFailedCheck m) (hf : ∀ a, NoFailedCheck (f a)) : NoFailedCheck (m >>= f) := by
  intro s
  obtain ⟨l, hl, hfc⟩ := hm s
  cases hms : m s with
  | mk s1 o =>
    rw [hms] at hl
    simp only at hl
    cases o with
    | panic msg =>
      rw [bind_panic m f s s1 msg hms]
      exact ⟨l, hl, hfc⟩
    | ret a =>
      rw [bind_ret m f s s1 a hms]
      obtain ⟨l2, hl2, hfc2⟩ := hf a s1
      refine ⟨l ++ l2, by rw [hl2, hl, List.append_assoc], ?_⟩
      intro e he
      rcases List.mem_append.mp he with h | h
      · exact hfc e h
      · exact hfc2 e h

/-- The body of `getPolicyUpdateResult` records no failed check. -/
theorem NoFailedCheck_getPolicyUpdateResult (env : Env σ π β υ α δ ρ) (changed : Bool)
    (policyData : δ) : NoFailedCheck (getPolicyUpdateResult env changed policyData) := by
  unfold getPolicyUpdateResult
  dsimp only
  refine NoFailedCheck_bind _ _ (NoFailedCheck_readStore _) (fun r => ?_)
  rcases r with e | _ | p
  · exact NoFailedCheck_raise _
  · exact NoFailedCheck_raise _
  · refine NoFailedCheck_bind _ _ (NoFailedCheck_readStore _) (fun a => ?_)
    cases a with
    | error e => exact NoFailedCheck_raise _
    | ok actualState => exact NoFailedCheck_emit _ rfl

/-- A step without failed check is guarded. -/
theorem Guarded_of_NoFailedCheck (m : M (State σ β δ ρ) τ) (h : NoFailedCheck m) :
    Guarded m := by
  intro s
  obtain ⟨l, hl, hfc⟩ := h s
  exact ⟨l, hl, Or.inl hfc⟩

/-- A guarded step after a checking step is guarded. -/
theorem Guarded_bind (m : M (State σ β δ ρ) τ) (f : τ → M (State σ β δ ρ) τ2)
    (hm : Checking m) (hf : ∀ a, Guarded (f a)) : Guarded (m >>= f) := by
  intro s
  obtain ⟨hst, l, hl, hcs, hfc⟩ := hm s
  cases hms : m s with
  | mk s1 o =>
    rw [hms] at hst hl hfc
    simp only at hst hl hfc
    cases o with
    | panic msg =>
      rw [bind_panic m f s s1 msg hms]
      exact ⟨l, hl, Or.inr ⟨hst, hcs, msg, rfl⟩⟩
    | ret a =>
      rw [bind_ret m f s s1 a hms]
      obtain ⟨l2, hl2, h2⟩ := hf a s1
      refine ⟨l ++ l2, by rw [hl2, hl, List.append_assoc], ?_⟩
      rcases h2 with h2 | ⟨hst2, hcs2, hp⟩
      · left
        intro e he
        rcases List.mem_append.mp he with h | h
        · exact hfc a rfl e h
        · exact h2 e h
      · right
        refine ⟨by rw [hst2, hst], ?_, hp⟩
        intro e he
        rcases List.mem_append.mp he with h | h
        · exact hcs e h
        · exact hcs2 e h

/-- A panic is guarded. -/
theorem Guarded_raise (msg : String) : Guarded (raise msg : M (State σ β δ ρ) τ) :=
  Guarded_of_NoFailedCheck _ (NoFailedCheck_raise msg)

/-- Recording a call and panicking at once is guarded. -/
theorem Guarded_emit_raise (e : Event β δ ρ) (msg : String) (hc : e.isCommit = false)
    (hs : e.isSignal = false) :
    Guarded ((emit e : M (State σ β δ ρ) Unit) >>= fun _ => (raise msg : M (State σ β δ ρ) τ)) := by
  intro s
  have h : ((emit e : M (State σ β δ ρ) Unit) >>= fun _ => (raise msg : M (State σ β δ ρ) τ)) s
      = ({ s with log := s.log ++ [e] }, Outcome.panic msg) := by
    rw [bind_ret _ _ s { s with log := s.log ++ [e] } () rfl]
    rfl
  rw [h]
  refine ⟨[e], rfl, Or.inr ⟨rfl, ?_, msg, rfl⟩⟩
  intro e1 he1
  simp at he1
  subst he1
  exact ⟨hc, hs⟩

/-- What the handlers do with the result of the commit records no failed check. -/
theorem NoFailedCheck_commitTail (env : Env σ π β υ α δ ρ)
    (u : Except String (Bool × δ)) (msg : String) :
    NoFailedCheck (match u with
      | .error e => (raise (msg ++ e) : M (State σ β δ ρ) Unit)
      | .ok (changed, policyData) => do
        getPolicyUpdateResult env changed policyData
        if changed then
          emit (Event.PolicyChanged true)) := by
  rcases u with e | ⟨changed, policyData⟩
  · exact NoFailedCheck_raise _
  · refine NoFailedCheck_bind _ _ (NoFailedCheck_getPolicyUpdateResult env _ _) (fun _ => ?_)
    cases changed
    · exact NoFailedCheck_pure _
    · exact NoFailedCheck_emit _ rfl

/-- The handler `handlePolicyUpdate` is guarded. -/
theorem Guarded_handlePolicyUpdate (env : Env σ π β υ α δ ρ) (request : Request β υ) :
    Guarded (handlePolicyUpdate env request) := by
  unfold handlePolicyUpdate
  refine Guarded_bind _ _ (Checking_ofOutcome _) (fun objects => ?_)
  refine Guarded_bind _ _ (Checking_ofOutcome _) (fun user => ?_)
  refine Guarded_bind _ _ (Checking_readStore _) (fun r => ?_)
  rcases r with e | _ | policy
  · exact Guarded_raise _
  · exact Guarded_raise _
  · refine Guarded_bind _ _ (Checking_updateLoop env user objects policy) (fun policy1 => ?_)
    dsimp only
    generalize env.PolicyValidate policy1 = err
    cases err with
    | some e => exact Guarded_emit_raise _ _ rfl rfl
    | none =>
      refine Guarded_bind _ _ (Checking_emit _ rfl rfl rfl) (fun _ => ?_)
      refine Guarded_bind _ _ (Checking_clusterLoop env objects) (fun _ => ?_)
      refine Guarded_of_NoFailedCheck _ ?_
      refine NoFailedCheck_bind _ _ (NoFailedCheck_emit _ rfl) (fun _ => ?_)
      refine NoFailedCheck_bind _ _ (NoFailedCheck_writeStore _) (fun u => ?_)
      exact NoFailedCheck_commitTail env u "Error while updating policy: "

/-- The handler `handlePolicyDelete` is guarded. -/
theorem Guarded_handlePolicyDelete (env : Env σ π β υ α δ ρ) (request : Request β υ) :
    Guarded (handlePolicyDelete env request) := by
  unfold handlePolicyDelete
  refine Guarded_bind _ _ (Checking_ofOutcome _) (fun objects => ?_)
  refine Guarded_bind _ _ (Checking_ofOutcome _) (fun user => ?_)
  refine Guarded_bind _ _ (Checking_readStore _) (fun r => ?_)
  rcases r with e | _ | policy
  · exact Guarded_raise _
  · exact Guarded_raise _
  · refine Guarded_bind _ _ (Checking_deleteLoop env user objects policy) (fun policy1 => ?_)
    dsimp only
    generalize env.PolicyValidate policy1 = err
    cases err with
    | some e => exact Guarded_emit_raise _ _ rfl rfl
    | none =>
      refine Guarded_bind _ _ (Checking_emit _ rfl rfl rfl) (fun _ => ?_)
      refine Guarded_bind _ _ (Checking_readStore _) (fun a => ?_)
      cases a with
      | error e => exact Guarded_raise _
      | ok actualState =>
        dsimp only
        generalize env.ActualStateValidate actualState policy1 = err2
        cases err2 with
        | some e => exact Guarded_emit_raise _ _ rfl rfl
        | none =>
          refine Guarded_bind _ _ (Checking_emit _ rfl rfl rfl) (fun _ => ?_)
          refine Guarded_of_NoFailedCheck _ ?_
          refine NoFailedCheck_bind _ _ (NoFailedCheck_emit _ rfl) (fun _ => ?_)
          refine NoFailedCheck_bind _ _ (NoFailedCheck_writeStore _) (fun u => ?_)
          exact NoFailedCheck_commitTail env u "Error while deleting from policy: "

/-- A run of a guarded handler in which a check failed has panicked, kept the
store and recorded neither a commit nor a signal. -/
theorem Guarded_run (h : M (State σ β δ ρ) Unit) (hg : Guarded h) (store : σ)
    (hfail : ∃ e ∈ (run h store).1.log, e.isFailedCheck = true) :
    (run h store).1.store = store ∧
    (∀ e ∈ (run h store).1.log, e.isCommit = false ∧ e.isSignal = false) ∧
    ∃ msg : String, (run h store).2 = Outcome.panic msg := by
  obtain ⟨l, hl, hd⟩ := hg { store := store, log := [] }
  obtain ⟨e, he, hef⟩ := hfail
  unfold run at he ⊢
  rw [hl] at he ⊢
  rcases hd with hd | ⟨hst, hcs, hp⟩
  · rw [hd e (by simpa using he)] at hef
    exact absurd hef (by simp)
  · exact ⟨hst, by simpa using hcs, hp⟩

/-- C6: in `handlePolicyUpdate` and in `handlePolicyDelete`, when a check has
failed (adding an object, its Manage check, the validation of the policy, the
lookup or the validation of a cluster plugin, the validation of the actual
state), the handler panics, the store is as it was, neither `UpdatePolicy` nor
`DeleteFromPolicy` has been called and no policy-changed signal has been sent. -/
theorem commit_only_after_checks (env : Env σ π β υ α δ ρ) (request : Request β υ)
    (store : σ) :
    ((∃ e ∈ (run (handlePolicyUpdate env request) store).1.log, e.isFailedCheck = true) →
      (run (handlePolicyUpdate env request) store).1.store = store ∧
      (∀ e ∈ (run (handlePolicyUpdate env request) store).1.log,
        e.isCommit = false ∧ e.isSignal = false) ∧
      ∃ msg : String, (run (handlePolicyUpdate env request) store).2 = Outcome.panic msg) ∧
    ((∃ e ∈ (run (handlePolicyDelete env request) store).1.log, e.isFailedCheck = true) →
      (run (handlePolicyDelete env request) store).1.store = store ∧
      (∀ e ∈ (run (handlePolicyDelete env request) store).1.log,
        e.isCommit = false ∧ e.isSignal = false) ∧
      ∃ msg : String, (run (handlePolicyDelete env request) store).2 = Outcome.panic msg) :=
  ⟨Guarded_run _ (Guarded_handlePolicyUpdate env request) store,
    Guarded_run _ (Guarded_handlePolicyDelete env request) store⟩

/-- Sequencing, unfolded. -/
theorem bind_eq (m : M (State σ β δ ρ) τ) (f : τ → M (State σ β δ ρ) τ2) :
    (m >>= f) = M.bind m f := rfl

/-- C8 (the code on an absent object): when the policy of the requested
generation has no object of the requested namespace, kind and name,
`handlePolicyObjectGet` writes two responses, the not-found one and then a
normal one carrying nil. -/
theorem handlePolicyObjectGet_absent (env : Env σ π β υ α δ ρ) (params : Params) (store : σ)
    (g : Generation) (policy : π)
    (hg : env.ParseGeneration
      (if len (params.ByName "gen") = 0 then Itoa (Generation.toInt env.LastGen)
        else params.ByName "gen") = Outcome.ret g)
    (hp : env.GetPolicy store g = Except.ok (some policy))
    (ho : env.PolicyGetObject policy (params.ByName "kind") (params.ByName "name")
      (params.ByName "ns") = Except.ok none) :
    run (handlePolicyObjectGet env params) store =
      ({ store := store,
         log := [Event.WriteOneWithStatus Payload.null StatusNotFound,
                 Event.WriteOne Payload.null] }, Outcome.ret ()) := by
  unfold run handlePolicyObjectGet
  simp only [bind_eq, M.bind, ofOutcome, hg, readStore, hp, ho]
  rfl

/-- A present object yields exactly one normal response. -/
theorem handlePolicyObjectGet_present (env : Env σ π β υ α δ ρ) (params : Params) (store : σ)
    (g : Generation) (policy : π) (obj : Base β)
    (hg : env.ParseGeneration
      (if len (params.ByName "gen") = 0 then Itoa (Generation.toInt env.LastGen)
        else params.ByName "gen") = Outcome.ret g)
    (hp : env.GetPolicy store g = Except.ok (some policy))
    (ho : env.PolicyGetObject policy (params.ByName "kind") (params.ByName "name")
      (params.ByName "ns") = Except.ok (some obj)) :
    run (handlePolicyObjectGet env params) store =
      ({ store := store, log := [Event.WriteOne (Payload.object obj)] }, Outcome.ret ()) := by
  unfold run handlePolicyObjectGet
  simp only [bind_eq, M.bind, ofOutcome, hg, readStore, hp, ho]
  rfl

/-- An absent generation yields exactly one response, the not-found one. -/
theorem handlePolicyGet_absent (env : Env σ π β υ α δ ρ) (params : Params) (store : σ)
    (g : Generation)
    (hg : env.ParseGeneration
      (if len (params.ByName "gen") = 0 then Itoa (Generation.toInt env.LastGen)
        else params.ByName "gen") = Outcome.ret g)
    (hp : env.GetPolicyData store g = Except.ok none) :
    run (handlePolicyGet env params) store =
      ({ store := store, log := [Event.WriteOneWithStatus Payload.null StatusNotFound] },
        Outcome.ret ()) := by
  unfold run handlePolicyGet
  simp only [bind_eq, M.bind, ofOutcome, hg, readStore, hp]
  rfl

/-- A present generation yields exactly one normal response. -/
theorem handlePolicyGet_present (env : Env σ π β υ α δ ρ) (params : Params) (store : σ)
    (g : Generation) (policyData : δ)
    (hg : env.ParseGeneration
      (if len (params.ByName "gen") = 0 then Itoa (Generation.toInt env.LastGen)
        else params.ByName "gen") = Outcome.ret g)
    (hp : env.GetPolicyData store g = Except.ok (some policyData)) :
    run (handlePolicyGet env params) store =
      ({ store := store, log := [Event.WriteOne (Payload.policyData policyData)] },
        Outcome.ret ()) := by
  unfold run handlePolicyGet
  simp only [bind_eq, M.bind, ofOutcome, hg, readStore, hp]
  rfl

/-- Witness for C8: the object `ns1/service/nope` is not in the policy. -/
theorem handlePolicyObjectGet_absent_witness :
    (run (handlePolicyObjectGet exEnv absentObject) exStore).1.log =
      [Event.WriteOneWithStatus Payload.null 404, Event.WriteOne Payload.null] :=
  congrArg (fun r => r.1.log)
    (handlePolicyObjectGet_absent exEnv absentObject exStore 0 [lang.webObj]
      (by decide) rfl rfl)

/-- One round of the loop of `handlePolicyUpdate`: the object is added first and
its Manage check is made on the policy which holds it already. -/
theorem updateLoop_cons (env : Env σ π β υ α δ ρ) (user : lang.User υ) (obj : Base β)
    (rest : List (Base β)) (policy : π) (s : State σ β δ ρ) :
    updateLoop env user (obj :: rest) policy s =
      match (env.PolicyAddObject policy obj).2 with
      | some e =>
        ({ s with log := s.log ++ [Event.AddObject obj (some e)] },
          Outcome.panic ("Error while adding updated object to policy: " ++ e))
      | none =>
        match (env.View (env.PolicyAddObject policy obj).1 user).ManageObject obj with
        | some e =>
          ({ s with log := s.log ++ [Event.AddObject obj none, Event.ManageObject obj (some e)] },
            Outcome.panic ("Error while adding updated object to policy: " ++ e))
        | none =>
          updateLoop env user rest (env.PolicyAddObject policy obj).1
            { s with log := s.log ++ [Event.AddObject obj none, Event.ManageObject obj none] } := by
  rw [updateLoop]
  simp only [bind_eq, M.bind, emit]
  cases (env.PolicyAddObject policy obj).2 with
  | some e => rfl
  | none =>
    simp only [bind_eq, M.bind, emit]
    cases (env.View (env.PolicyAddObject policy obj).1 user).ManageObject obj with
    | some e => simp [raise]
    | none => simp

/-- One round of the loop of `handlePolicyDelete`: the Manage check is made on
the policy as it is, and the object is removed only once the check has passed. -/
theorem deleteLoop_cons (env : Env σ π β υ α δ ρ) (user : lang.User υ) (obj : Base β)
    (rest : List (Base β)) (policy : π) (s : State σ β δ ρ) :
    deleteLoop env user (obj :: rest) policy s =
      match (env.View policy user).ManageObject obj with
      | some e =>
        ({ s with log := s.log ++ [Event.ManageObject obj (some e)] },
          Outcome.panic ("Error while removing object from policy: " ++ e))
      | none =>
        deleteLoop env user rest (env.PolicyRemoveObject policy obj)
          { s with log := s.log ++ [Event.ManageObject obj none, Event.RemoveObject obj] } := by
  rw [deleteLoop]
  simp only [bind_eq, M.bind, emit]
  cases (env.View policy user).ManageObject obj with
  | some e => rfl
  | none => simp [M.bind, emit]

/-- Witness for C6: `mallory` may not manage the service `web`; neither the
update nor the deletion reaches the store. -/
theorem commit_only_after_checks_witness :
    (run (handlePolicyUpdate exEnv webRequest) exStore).1.store = exStore ∧
    (∀ e ∈ (run (handlePolicyUpdate exEnv webRequest) exStore).1.log,
      e.isCommit = false ∧ e.isSignal = false) ∧
    (run (handlePolicyDelete exEnv webRequest) exStore).1.store = exStore :=
  ⟨((commit_only_after_checks exEnv webRequest exStore).1
      ⟨Event.ManageObject lang.webObj
        (some "user 'mallory' doesn't have ACL permissions to manage object 'ns1/service/web'"),
        by decide, rfl⟩).1,
    ((commit_only_after_checks exEnv webRequest exStore).1
      ⟨Event.ManageObject lang.webObj
        (some "user 'mallory' doesn't have ACL permissions to manage object 'ns1/service/web'"),
        by decide, rfl⟩).2.1,
    ((commit_only_after_checks exEnv webRequest exStore).2
      ⟨Event.ManageObject lang.webObj
        (some "user 'mallory' doesn't have ACL permissions to manage object 'ns1/service/web'"),
        by decide, rfl⟩).1⟩

/-- C7 (the code at the failing input): `handlePolicyUpdate` adds an object to
the policy before it checks Manage for it. For the service `web` the call of
`AddObject` precedes the failing check. For the ACL rule of `mallory`, which
the current policy does not let `mallory` manage, the check is made on the
policy which holds the rule already, passes, and the rule is committed. -/
theorem handlePolicyUpdate_adds_before_check :
    (run (handlePolicyUpdate exEnv webRequest) exStore).1.log =
      [Event.AddObject lang.webObj none,
       Event.ManageObject lang.webObj
        (some "user 'mallory' doesn't have ACL permissions to manage object 'ns1/service/web'")] ∧
    (exEnv.View exStore.1 mallory).ManageObject malloryRule =
      some "user 'mallory' doesn't have ACL permissions to manage object 'system/aclrule/mallory'" ∧
    (run (handlePolicyUpdate exEnv ruleRequest) exStore).1.log =
      [Event.AddObject malloryRule none,
       Event.ManageObject malloryRule none,
       Event.Validate none,
       Event.UpdatePolicy [malloryRule] "mallory",
       Event.WriteOne (Payload.updateResult
        { Kind := "policy-update-result", PolicyGeneration := 2, PolicyChanged := true,
          PlanAsText := "" }),
       Event.PolicyChanged true] ∧
    (run (handlePolicyUpdate exEnv ruleRequest) exStore).1.store =
      ([malloryRule, lang.webObj], 2) := by
  refine ⟨by decide, by decide, by decide, by decide⟩

end handlerLemmas

end api


section goMap

variable {α : Type}

/-- An entry of a map after an assignment is the entry assigned or an entry of the map before. -/
theorem GoMap.mem_set (m : GoMap α) (k : String) (v : α) (e : String × α)
    (h : e ∈ GoMap.set m k v) : e = (k, v) ∨ e ∈ m := by
  induction m with
  | nil =>
    simp [GoMap.set] at h
    exact Or.inl h
  | cons hd tl ih =>
    obtain ⟨k1, v1⟩ := hd
    unfold GoMap.set at h
    split at h
    · rcases List.mem_cons.mp h with h | h
      · exact Or.inl h
      · exact Or.inr (List.mem_cons_of_mem _ h)
    · rcases List.mem_cons.mp h with h | h
      · exact Or.inr (h ▸ List.mem_cons_self _ _)
      · rcases ih h with h | h
        · exact Or.inl h
        · exact Or.inr (List.mem_cons_of_mem _ h)

/-- A lookup after an assignment of the same key gives the value assigned. -/
theorem GoMap.get_set_self (m : GoMap α) (k : String) (v : α) :
    GoMap.get (GoMap.set m k v) k = some v := by
  induction m with
  | nil => simp [GoMap.set, GoMap.get]
  | cons hd tl ih =>
    obtain ⟨k1, v1⟩ := hd
    unfold GoMap.set
    split
    · simp [GoMap.get]
    · rename_i hne
      simp [GoMap.get, hne, ih]


/-- A lookup after an assignment of another key gives what it gave before. -/
theorem GoMap.get_set_other (m : GoMap α) (k k2 : String) (v : α) (hne : k ≠ k2) :
    GoMap.get (GoMap.set m k v) k2 = GoMap.get m k2 := by
  induction m with
  | nil => simp [GoMap.set, GoMap.get, hne]
  | cons hd tl ih =>
    obtain ⟨k1, v1⟩ := hd
    unfold GoMap.set
    split
    · rename_i h1
      subst h1
      simp [GoMap.get, hne]
    · simp [GoMap.get, ih]

end goMap

namespace slinga

section policyNamespace

variable {β ρ δ : Type}

/-- Every cluster of the namespace is in the system namespace. -/
theorem addObject_clusters (env : Env β ρ δ) (pn : PolicyNamespace β ρ δ) (obj : Base β)
    (h : ∀ c ∈ pn.Clusters, c.2.Namespace = env.SystemNS) :
    ∀ c ∈ (pn.addObject env obj).1.Clusters, c.2.Namespace = env.SystemNS := by
  unfold PolicyNamespace.addObject
  dsimp only
  repeat' split
  all_goals try exact h
  rename_i hns _
  intro c hc
  rcases GoMap.mem_set _ _ _ _ hc with hc | hc
  · rw [hc]
    exact not_not.mp hns
  · exact h c hc

/-- A sequence of `addObject` calls keeps every cluster in the system namespace. -/
theorem addObjects_clusters (env : Env β ρ δ) (objs : List (Base β)) :
    ∀ pn : PolicyNamespace β ρ δ, (∀ c ∈ pn.Clusters, c.2.Namespace = env.SystemNS) →
      ∀ c ∈ (addObjects env pn objs).1.Clusters, c.2.Namespace = env.SystemNS := by
  induction objs with
  | nil => intro pn h; exact h
  | cons obj rest ih =>
    intro pn h
    have h1 := addObject_clusters env pn obj h
    unfold addObjects
    cases hr : pn.addObject env obj with
    | mk next o =>
      rw [hr] at h1
      cases o with
      | ret u => exact ih next h1
      | panic msg => exact h1

/-- C9: from `NewPolicyNamespace`, after any sequence of `addObject` calls, be
it completed or ended by a panic, every cluster of `Clusters` is in the
system namespace; and `addObject` of an object of kind cluster which is in
another namespace panics and leaves the policy namespace as it was. -/
theorem clusters_in_system_namespace (env : Env β ρ δ)
    (hs : env.ClusterKind ≠ env.ServiceKind) (hc : env.ClusterKind ≠ env.ContractKind)
    (name : String) (objs : List (Base β)) (pn : PolicyNamespace β ρ δ) (obj : Base β)
    (hkind : obj.Kind = env.ClusterKind) (hns : obj.Namespace ≠ env.SystemNS) :
    (∀ c ∈ (addObjects env (NewPolicyNamespace env name) objs).1.Clusters,
      c.2.Namespace = env.SystemNS) ∧
    pn.addObject env obj =
      (pn, Outcome.panic ("Adding cluster '" ++ env.GetKey obj ++
        "' into a non-system namespace '" ++ obj.Namespace ++ "'")) ∧
    (addObjects env pn (obj :: objs)).1.Clusters = pn.Clusters := by
  have hadd : pn.addObject env obj =
      (pn, Outcome.panic ("Adding cluster '" ++ env.GetKey obj ++
        "' into a non-system namespace '" ++ obj.Namespace ++ "'")) := by
    unfold PolicyNamespace.addObject
    simp [hkind, hs, hc, hns]
  refine ⟨addObjects_clusters env objs _ (by simp [NewPolicyNamespace]), hadd, ?_⟩
  unfold addObjects
  rw [hadd]

/-- Witness for C9: the cluster `c2` of the namespace `main` is refused, the
cluster `c1` of the system namespace is stored. -/
theorem clusters_in_system_namespace_witness :
    strayCluster.Kind = exEnv.ClusterKind ∧ strayCluster.Namespace ≠ exEnv.SystemNS ∧
    (addObjects exEnv (NewPolicyNamespace exEnv "main") [webService, systemCluster]).1.Clusters =
      [("c1", systemCluster)] ∧
    (addObjects exEnv (NewPolicyNamespace exEnv "main") [webService, systemCluster]).2 =
      Outcome.ret () ∧
    ((NewPolicyNamespace exEnv "main").addObject exEnv strayCluster).2 =
      Outcome.panic "Adding cluster 'main/cluster/c2' into a non-system namespace 'main'" ∧
    (∀ c ∈ (addObjects exEnv (NewPolicyNamespace exEnv "main")
        [webService, systemCluster]).1.Clusters, c.2.Namespace = "system") :=
  ⟨rfl, by decide, by decide, by decide, by decide,
    (clusters_in_system_namespace exEnv (by decide) (by decide) "main"
      [webService, systemCluster] (NewPolicyNamespace exEnv "main") strayCluster rfl
      (by decide)).1⟩


/-- What `addObject` does to `Services`. -/
theorem addObject_Services (env : Env β ρ δ) (pn : PolicyNamespace β ρ δ) (obj : Base β) :
    (pn.addObject env obj).1.Services =
      if obj.Kind = env.ServiceKind ∧ obj.Dyn = GoType.Service then
        pn.Services.set obj.Name obj
      else pn.Services := by
  unfold PolicyNamespace.addObject
  dsimp only
  by_cases h1 : obj.Kind = env.ServiceKind
  · by_cases hd : obj.Dyn = GoType.Service <;> simp [h1, hd]
  · simp only [h1, false_and, if_false]
    split_ifs <;> rfl

/-- What `addObject` does to `Contracts`. -/
theorem addObject_Contracts (env : Env β ρ δ) (pn : PolicyNamespace β ρ δ) (obj : Base β) :
    (pn.addObject env obj).1.Contracts =
      if obj.Kind ≠ env.ServiceKind ∧ obj.Kind = env.ContractKind ∧
          obj.Dyn = GoType.Contract then
        pn.Contracts.set obj.Name obj
      else pn.Contracts := by
  unfold PolicyNamespace.addObject
  dsimp only
  by_cases h1 : obj.Kind = env.ServiceKind
  · by_cases hd : obj.Dyn = GoType.Service <;> simp [h1, hd]
  · rw [if_neg h1]
    by_cases h2 : obj.Kind = env.ContractKind
    · have h12 : ¬ env.ContractKind = env.ServiceKind := h2 ▸ h1
      rw [if_pos h2]
      by_cases hd : obj.Dyn = GoType.Contract <;> simp [h2, h12, hd]
    · simp only [h1, h2, ne_eq, not_false_eq_true, false_and, and_false, if_false]
      split_ifs <;> rfl

/-- What `addObject` does to `Clusters`. -/
theorem addObject_Clusters (env : Env β ρ δ) (pn : PolicyNamespace β ρ δ) (obj : Base β) :
    (pn.addObject env obj).1.Clusters =
      if obj.Kind ≠ env.ServiceKind ∧ obj.Kind ≠ env.ContractKind ∧
          obj.Kind = env.ClusterKind ∧ obj.Namespace = env.SystemNS ∧
          obj.Dyn = GoType.Cluster then
        pn.Clusters.set obj.Name obj
      else pn.Clusters := by
  unfold PolicyNamespace.addObject
  dsimp only
  by_cases h1 : obj.Kind = env.ServiceKind
  · by_cases hd : obj.Dyn = GoType.Service <;> simp [h1, hd]
  · rw [if_neg h1]
    by_cases h2 : obj.Kind = env.ContractKind
    · rw [if_pos h2]
      by_cases hd : obj.Dyn = GoType.Contract <;> simp [h2, hd]
    · rw [if_neg h2]
      by_cases h3 : obj.Kind = env.ClusterKind
      · have h13 : ¬ env.ClusterKind = env.ServiceKind := h3 ▸ h1
        have h23 : ¬ env.ClusterKind = env.ContractKind := h3 ▸ h2
        rw [if_pos h3]
        by_cases hns : obj.Namespace = env.SystemNS
        · by_cases hd : obj.Dyn = GoType.Cluster <;> simp [h3, h13, h23, hns, hd]
        · simp [h3, h13, h23, hns]
      · simp only [h1, h2, h3, ne_eq, not_false_eq_true, false_and, and_false, if_false]
        split_ifs <;> rfl

/-- When `addObject` of an object of a served kind returns. -/
theorem addObject_returns (env : Env β ρ δ) (pn : PolicyNamespace β ρ δ) (obj : Base β)
    (hk : Served env obj.Kind) :
    (pn.addObject env obj).2 = Outcome.ret () ↔
      if obj.Kind = env.ServiceKind then obj.Dyn = GoType.Service
      else if obj.Kind = env.ContractKind then obj.Dyn = GoType.Contract
      else obj.Namespace = env.SystemNS ∧ obj.Dyn = GoType.Cluster := by
  unfold PolicyNamespace.addObject
  dsimp only
  by_cases h1 : obj.Kind = env.ServiceKind
  · rw [if_pos h1, if_pos h1]
    by_cases hd : obj.Dyn = GoType.Service <;> simp [hd]
  · rw [if_neg h1, if_neg h1]
    by_cases h2 : obj.Kind = env.ContractKind
    · rw [if_pos h2, if_pos h2]
      by_cases hd : obj.Dyn = GoType.Contract <;> simp [hd]
    · rw [if_neg h2, if_neg h2]
      have h3 : obj.Kind = env.ClusterKind := by
        rcases hk with hk | hk | hk
        · exact absurd hk h1
        · exact absurd hk h2
        · exact hk
      rw [if_pos h3]
      by_cases hns : obj.Namespace = env.SystemNS
      · by_cases hd : obj.Dyn = GoType.Cluster <;> simp [hns, hd]
      · simp [hns]

/-- What `getObject` reads for the kind of services. -/
theorem getObject_service (env : Env β ρ δ) (pn : PolicyNamespace β ρ δ) (name : String) :
    pn.getObject env env.ServiceKind name = Outcome.ret (pn.Services.get name) := by
  simp [PolicyNamespace.getObject]

/-- What `getObject` reads for the kind of contracts. -/
theorem getObject_contract (env : Env β ρ δ) (pn : PolicyNamespace β ρ δ) (name : String)
    (h1 : ¬ env.ContractKind = env.ServiceKind) :
    pn.getObject env env.ContractKind name = Outcome.ret (pn.Contracts.get name) := by
  simp [PolicyNamespace.getObject, h1]

/-- What `getObject` reads for the kind of clusters. -/
theorem getObject_cluster (env : Env β ρ δ) (pn : PolicyNamespace β ρ δ) (name : String)
    (h1 : ¬ env.ClusterKind = env.ServiceKind) (h2 : ¬ env.ClusterKind = env.ContractKind) :
    pn.getObject env env.ClusterKind name = Outcome.ret (pn.Clusters.get name) := by
  simp [PolicyNamespace.getObject, h1, h2]

/-- A served kind is the kind of services, or else of contracts, or else of clusters. -/
theorem Served.cases (env : Env β ρ δ) (kind : String) (hk : Served env kind) :
    kind = env.ServiceKind ∨
    (¬ kind = env.ServiceKind ∧ kind = env.ContractKind) ∨
    (¬ kind = env.ServiceKind ∧ ¬ kind = env.ContractKind ∧ kind = env.ClusterKind) := by
  by_cases h1 : kind = env.ServiceKind
  · exact Or.inl h1
  · by_cases h2 : kind = env.ContractKind
    · exact Or.inr (Or.inl ⟨h1, h2⟩)
    · rcases hk with hk | hk | hk
      · exact absurd hk h1
      · exact absurd hk h2
      · exact Or.inr (Or.inr ⟨h1, h2, hk⟩)

/-- One call of `addObject`, seen by `getObject` for a served kind: the object
added when the call returned and kind and name are its own, and what
`getObject` gave before otherwise. -/
theorem getObject_addObject (env : Env β ρ δ) (pn : PolicyNamespace β ρ δ) (obj : Base β)
    (kind name : String) (hk : Served env kind) :
    (pn.addObject env obj).1.getObject env kind name =
      if (pn.addObject env obj).2 = Outcome.ret () ∧ obj.Kind = kind ∧ obj.Name = name then
        Outcome.ret (some obj)
      else pn.getObject env kind name := by
  rcases Served.cases env kind hk with h1 | ⟨h1, h2⟩ | ⟨h1, h2, h3⟩
  · subst h1
    rw [getObject_service, getObject_service, addObject_Services]
    by_cases hkind : obj.Kind = env.ServiceKind
    · have hret := addObject_returns env pn obj (Or.inl hkind)
      rw [if_pos hkind] at hret
      simp only [hret, hkind, true_and]
      by_cases hd : obj.Dyn = GoType.Service
      · by_cases hn : obj.Name = name
        · subst hn
          simp [hd, GoMap.get_set_self]
        · simp [hd, hn, GoMap.get_set_other _ _ _ _ hn]
      · simp [hd]
    · simp [hkind]
  · subst h2
    rw [getObject_contract _ _ _ h1, getObject_contract _ _ _ h1, addObject_Contracts]
    by_cases hkind : obj.Kind = env.ContractKind
    · have hret := addObject_returns env pn obj (Or.inr (Or.inl hkind))
      have hs : ¬ obj.Kind = env.ServiceKind := hkind ▸ h1
      rw [if_neg hs, if_pos hkind] at hret
      simp only [hret, hkind, h1, true_and, ne_eq, not_false_eq_true]
      by_cases hd : obj.Dyn = GoType.Contract
      · by_cases hn : obj.Name = name
        · subst hn
          simp [hd, GoMap.get_set_self]
        · simp [hd, hn, GoMap.get_set_other _ _ _ _ hn]
      · simp [hd]
    · simp [hkind]
  · subst h3
    rw [getObject_cluster _ _ _ h1 h2, getObject_cluster _ _ _ h1 h2, addObject_Clusters]
    by_cases hkind : obj.Kind = env.ClusterKind
    · have hret := addObject_returns env pn obj (Or.inr (Or.inr hkind))
      have hs : ¬ obj.Kind = env.ServiceKind := hkind ▸ h1
      have hc : ¬ obj.Kind = env.ContractKind := hkind ▸ h2
      rw [if_neg hs, if_neg hc] at hret
      simp only [hret, hkind, h1, h2, true_and, ne_eq, not_false_eq_true]
      by_cases hd : obj.Namespace = env.SystemNS ∧ obj.Dyn = GoType.Cluster
      · by_cases hn : obj.Name = name
        · subst hn
          simp [hd, GoMap.get_set_self]
        · simp [hd, hn, GoMap.get_set_other _ _ _ _ hn]
      · simp [hd]
    · simp [hkind]

/-- The object most recently added is the first match from the end of the list. -/
theorem lastAdded_eq_find (kind name : String) (objs : List (Base β)) :
    lastAdded kind name objs =
      objs.reverse.find? (fun o => decide (o.Kind = kind ∧ o.Name = name)) := by
  induction objs with
  | nil => rfl
  | cons obj rest ih =>
    rw [lastAdded, ih, List.reverse_cons, List.find?_append]
    cases List.find? (fun o => decide (o.Kind = kind ∧ o.Name = name)) rest.reverse with
    | some later => rfl
    | none =>
      by_cases hc : obj.Kind = kind ∧ obj.Name = name <;> simp [List.find?, hc]

/-- No object of that kind and name in the list: none was most recently added. -/
theorem lastAdded_none (kind name : String) (objs : List (Base β))
    (h : ∀ o ∈ objs, ¬ (o.Kind = kind ∧ o.Name = name)) : lastAdded kind name objs = none := by
  induction objs with
  | nil => rfl
  | cons obj rest ih =>
    rw [lastAdded, ih (fun o ho => h o (List.mem_cons_of_mem _ ho))]
    simp only [if_neg (h obj (List.mem_cons_self _ _))]

/-- When every call of the sequence returns, every object of the list was added. -/
theorem addedObjects_of_ret (env : Env β ρ δ) (objs : List (Base β)) :
    ∀ pn : PolicyNamespace β ρ δ, (addObjects env pn objs).2 = Outcome.ret () →
      addedObjects env pn objs = objs := by
  induction objs with
  | nil => intro pn _; rfl
  | cons obj rest ih =>
    intro pn h
    unfold addObjects at h
    unfold addedObjects
    cases hr : pn.addObject env obj with
    | mk next o =>
      rw [hr] at h
      cases o with
      | ret u =>
        simp only at h ⊢
        rw [ih next h]
      | panic msg => simp at h

/-- After a sequence of `addObject` calls, `getObject` for a served kind gives
the object of that kind and name most recently added by the calls which
returned, and what it gave before the sequence when there is none. -/
theorem getObject_addObjects (env : Env β ρ δ) (kind name : String) (hk : Served env kind)
    (objs : List (Base β)) :
    ∀ pn : PolicyNamespace β ρ δ,
      (addObjects env pn objs).1.getObject env kind name =
        match lastAdded kind name (addedObjects env pn objs) with
        | some obj => Outcome.ret (some obj)
        | none => pn.getObject env kind name := by
  induction objs with
  | nil => intro pn; rfl
  | cons obj rest ih =>
    intro pn
    have hstep := getObject_addObject env pn obj kind name hk
    unfold addObjects addedObjects
    cases hr : pn.addObject env obj with
    | mk next o =>
      rw [hr] at hstep
      cases o with
      | ret u =>
        simp only at hstep ⊢
        rw [ih next, lastAdded]
        cases lastAdded kind name (addedObjects env next rest) with
        | some later => rfl
        | none =>
          simp only [hstep, true_and]
          by_cases hc : obj.Kind = kind ∧ obj.Name = name <;> simp [hc]
      | panic msg =>
        simp only at hstep ⊢
        rw [hstep]
        simp [lastAdded]

/-- C11: for a kind among service, contract and cluster and every name,
`getObject` after a sequence of `addObject` calls on a new namespace returns the
object of that kind and name most recently added (by a call which returned),
and nil when there is none; it never panics. One call which returns makes
`getObject` give its object for the kind and name of that object, also when
another object had them before, and leaves every other kind or name as it was. -/
theorem getObject_latest (env : Env β ρ δ) (nsName : String) (objs : List (Base β))
    (kind name : String) (hk : Served env kind) :
    (addObjects env (NewPolicyNamespace env nsName) objs).1.getObject env kind name =
      Outcome.ret (lastAdded kind name (addedObjects env (NewPolicyNamespace env nsName) objs)) ∧
    ((addObjects env (NewPolicyNamespace env nsName) objs).2 = Outcome.ret () →
      addedObjects env (NewPolicyNamespace env nsName) objs = objs) ∧
    ((∀ o ∈ addedObjects env (NewPolicyNamespace env nsName) objs,
        ¬ (o.Kind = kind ∧ o.Name = name)) →
      (addObjects env (NewPolicyNamespace env nsName) objs).1.getObject env kind name =
        Outcome.ret none) ∧
    (NewPolicyNamespace env nsName).getObject env kind name = Outcome.ret none ∧
    (∀ (pn : PolicyNamespace β ρ δ) (obj : Base β),
      (pn.addObject env obj).2 = Outcome.ret () → obj.Kind = kind → obj.Name = name →
        (pn.addObject env obj).1.getObject env kind name = Outcome.ret (some obj)) ∧
    (∀ (pn : PolicyNamespace β ρ δ) (obj : Base β),
      ¬ (obj.Kind = kind ∧ obj.Name = name) →
        (pn.addObject env obj).1.getObject env kind name = pn.getObject env kind name) := by
  have hnew : (NewPolicyNamespace env nsName).getObject env kind name = Outcome.ret none := by
    rcases Served.cases env kind hk with h1 | ⟨h1, h2⟩ | ⟨h1, h2, h3⟩
    · subst h1
      rw [getObject_service]
      rfl
    · subst h2
      rw [getObject_contract _ _ _ h1]
      rfl
    · subst h3
      rw [getObject_cluster _ _ _ h1 h2]
      rfl
  have hseq : (addObjects env (NewPolicyNamespace env nsName) objs).1.getObject env kind name =
      Outcome.ret
        (lastAdded kind name (addedObjects env (NewPolicyNamespace env nsName) objs)) := by
    rw [getObject_addObjects env kind name hk objs]
    cases lastAdded kind name (addedObjects env (NewPolicyNamespace env nsName) objs) with
    | some obj => rfl
    | none => exact hnew
  refine ⟨hseq, addedObjects_of_ret env objs _, ?_, hnew, ?_, ?_⟩
  · intro h
    rw [hseq, lastAdded_none kind name _ h]
  · intro pn obj hret hkind hname
    rw [getObject_addObject env pn obj kind name hk, if_pos ⟨hret, hkind, hname⟩]
  · intro pn obj hne
    rw [getObject_addObject env pn obj kind name hk, if_neg (fun h => hne h.2)]

/-- Witness for C11: two services named `web` and a contract named `web` are
added to a new namespace; `getObject` gives the second service, the contract,
and nil for a cluster. -/
theorem getObject_latest_witness :
    Served exEnv "service" ∧
    (addObjects exEnv (NewPolicyNamespace exEnv "main")
        [webService, webContract, webService2]).1.getObject exEnv "service" "web" =
      Outcome.ret (some webService2) ∧
    (addObjects exEnv (NewPolicyNamespace exEnv "main")
        [webService, webContract, webService2]).1.getObject exEnv "contract" "web" =
      Outcome.ret (some webContract) ∧
    (addObjects exEnv (NewPolicyNamespace exEnv "main")
        [webService, webContract, webService2]).1.getObject exEnv "cluster" "web" =
      Outcome.ret none ∧
    (addObjects exEnv (NewPolicyNamespace exEnv "main")
        [webService, webContract, webService2]).1.getObject exEnv "service" "web" =
      Outcome.ret (lastAdded "service" "web"
        (addedObjects exEnv (NewPolicyNamespace exEnv "main")
          [webService, webContract, webService2])) :=
  ⟨Or.inl rfl, by decide, by decide, by decide,
    (getObject_latest exEnv "main" [webService, webContract, webService2] "service" "web"
      (Or.inl rfl)).1⟩

end policyNamespace

end slinga

/-- A string has no byte exactly when it is empty. -/
theorem len_le_zero_iff (s : String) : len s ≤ 0 ↔ s = "" := by
  obtain ⟨cs⟩ := s
  cases cs with
  | nil => simp [len, String.utf8ByteSize, String.utf8ByteSize.go]
  | cons c cs =>
    have hpos := Char.utf8Size_pos c
    have hne : (String.mk (c :: cs)) ≠ "" := by
      intro h
      have := congrArg String.data h
      simp at this
    have hlen : len (String.mk (c :: cs)) = String.utf8ByteSize.go cs + c.utf8Size := rfl
    rw [hlen]
    constructor
    · intro h
      omega
    · intro h
      exact absurd h hne

namespace api

section columns

variable {ρ : Type}

/-- On a generation from `1` to `2 ^ 64 - 1` the wrapping `g - 1` is the predecessor. -/
theorem Generation.subOne_eq (g : Nat) (h1 : 1 ≤ g) (h2 : g < 2 ^ 64) :
    Generation.subOne g = g - 1 := by
  have hp : (2 : Nat) ^ 64 = 18446744073709551616 := by norm_num
  show (g + 2 ^ 64 - 1) % 2 ^ 64 = g - 1
  rw [hp] at h2 ⊢
  omega

/-- C10: the keys of `AsColumns` are exactly the columns of `GetDefaultColumns`,
"Policy Changes" and "Action Plan"; "Policy Changes" is "Gen (g-1) -> g" when
the policy changed, with `g-1` the subtraction of the generation type (the
predecessor of `g` for `g` from `1` on), and "Gen g (none)" otherwise;
"Action Plan" is the text of the plan, or "(none)" when that text is empty. -/
theorem AsColumns_columns (ToString : ρ → String) (result : PolicyUpdateResult ρ) :
    (∀ k : String, k ∈ (result.AsColumns ToString).keys ↔ k ∈ result.GetDefaultColumns) ∧
    result.GetDefaultColumns = ["Policy Changes", "Action Plan"] ∧
    (result.AsColumns ToString).keys.Nodup ∧
    (result.AsColumns ToString).get "Policy Changes" =
      some (if result.PolicyChanged then
          "Gen " ++ toString (Generation.subOne result.PolicyGeneration) ++ " -> " ++
            toString result.PolicyGeneration
        else "Gen " ++ toString result.PolicyGeneration ++ " (none)") ∧
    (result.AsColumns ToString).get "Action Plan" =
      some (if ToString result.PlanAsText = "" then "(none)"
        else ToString result.PlanAsText) ∧
    (1 ≤ result.PolicyGeneration ∧ result.PolicyGeneration < 2 ^ 64 →
      Generation.subOne result.PolicyGeneration = result.PolicyGeneration - 1) := by
  have hne : ¬ ("Policy Changes" = "Action Plan") := by decide
  have hne2 : ¬ ("Action Plan" = "Policy Changes") := by decide
  have hemp : (len (ToString result.PlanAsText) ≤ 0) = (ToString result.PlanAsText = "") :=
    propext (len_le_zero_iff _)
  refine ⟨?_, rfl, ?_, ?_, ?_, fun h => Generation.subOne_eq _ h.1 h.2⟩
  · intro k
    simp [PolicyUpdateResult.AsColumns, PolicyUpdateResult.GetDefaultColumns, GoMap.set,
      GoMap.keys, hne]
  · simp [PolicyUpdateResult.AsColumns, GoMap.set, GoMap.keys, hne]
  · simp [PolicyUpdateResult.AsColumns, GoMap.set, GoMap.get, hne, fmtD]
  · simp only [PolicyUpdateResult.AsColumns, GoMap.set, GoMap.get, hne, hne2, hemp, if_false,
      if_true]

/-- Witness for C10: the result of generation `6`, changed and unchanged. -/
theorem AsColumns_columns_witness :
    (1 ≤ 6 ∧ 6 < 2 ^ 64) ∧
    ((⟨"policy-update-result", 6, true, "plan"⟩ : PolicyUpdateResult String).AsColumns id).get
        "Policy Changes" = some "Gen 5 -> 6" ∧
    ((⟨"policy-update-result", 6, false, ""⟩ : PolicyUpdateResult String).AsColumns id) =
      [("Policy Changes", "Gen 6 (none)"), ("Action Plan", "(none)")] ∧
    Generation.subOne 6 = 6 - 1 :=
  ⟨by decide, by decide, by decide,
    (AsColumns_columns id (⟨"policy-update-result", 6, true, "plan"⟩ :
      PolicyUpdateResult String)).2.2.2.2.2 ⟨by decide, by decide⟩⟩

end columns

end api

end Aptomi
